import Mathlib

/-!
# Chain parameters of noblegascoin (`src/chainparams.cpp`)

A shallow embedding of the chain-parameter tables, the three network
constructors (`CMainParams`, `CTestNetParams`, `CRegTestParams`), the genesis
block builder and the process-wide registry (`globalChainParams`, `Params`,
`CreateChainParams`, `SelectParams`, `UpdateVersionBitsParameters`).

Conventions.
* A `uint256` is a natural number (below `2^256` for every value built here).
* `int`, `int32_t`, `int64_t` values are `Int`; `uint32_t` and bytes are `Nat`.
  No arithmetic of the file can overflow: every value is a literal or a
  product/quotient of small literals.
* A function that can throw or abort returns `Except ChainError _`.
* Code that lives outside `chainparams.cpp` (hashing, merkle root, base
  parameter selection, `COIN`, `ParseHex`, the seed tables) is collected in the
  structure `External` and every definition takes it as an argument.
-/

namespace ChainParams

/-! ## Failure modes -/

/-- The two ways a call can fail: a thrown `std::runtime_error` with its message,
or a failed `assert` (the process aborts). `null_dereference` stands for the
undefined behaviour of `globalChainParams->...` on an empty pointer. -/
inductive ChainError where
  | runtime_error (what : String)
  | assertion_failed
  | null_dereference
  deriving DecidableEq

/-! ## `uint256S` -/

/-- The value of a hexadecimal digit, `none` for any other character
(`HexDigit` of `utilstrencodings.cpp`, compared on code points). -/
def hexDigit (c : Char) : Option Nat :=
  let n := c.toNat
  if 48 ≤ n ∧ n ≤ 57 then some (n - 48)
  else if 97 ≤ n ∧ n ≤ 102 then some (n - 87)
  else if 65 ≤ n ∧ n ≤ 70 then some (n - 55)
  else none

/-- Whether a character is a hexadecimal digit. -/
def isHexDigit (c : Char) : Bool := (hexDigit c).isSome

/-- Whether a character is C `isspace` white space. -/
def isSpaceChar (c : Char) : Bool :=
  let n := c.toNat
  n == 32 || (9 ≤ n && n ≤ 13)

/-- Drop an optional `0x` / `0X` prefix. -/
def dropHexPrefix : List Char → List Char
  | c0 :: c1 :: rest =>
    if c0.toNat = 48 ∧ (c1.toNat = 120 ∨ c1.toNat = 88) then rest else c0 :: c1 :: rest
  | cs => cs

/-- The hexadecimal digits that `uint256S` reads from a literal: leading white
space and an optional `0x` are skipped, then the longest run of hex digits. -/
def hexDigitsOf (s : String) : List Char :=
  (dropHexPrefix (s.toList.dropWhile isSpaceChar)).takeWhile isHexDigit

/-- Modelled from the spec: `uint256S` (`uint256.cpp`, not part of the sources at
hand), which the spec describes as producing a fixed-length 256-bit hash value
from a hexadecimal literal. The digits are read most significant first and the
result keeps the low 256 bits. -/
def uint256S (s : String) : Nat :=
  ((hexDigitsOf s).foldl (fun acc c => acc * 16 + (hexDigit c).getD 0) 0) % 2 ^ 256

/-! ## Scripts, transactions, blocks -/

/-- The opcodes that occur in `chainparams.cpp`. -/
inductive opcodetype where
  | OP_DUP
  | OP_HASH160
  | OP_EQUALVERIFY
  | OP_CHECKSIG
  deriving DecidableEq

/-- One `operator<<` applied to a `CScript`: an integer, a `CScriptNum`, a byte
vector or an opcode. The byte encoding of scripts is outside this file. -/
inductive ScriptItem where
  | int64 (n : Int)
  | scriptNum (n : Int)
  | bytes (v : List Nat)
  | opcode (o : opcodetype)
  deriving DecidableEq

/-- A `CScript` as the sequence of items pushed onto it. -/
abbrev CScript := List ScriptItem

/-- A transaction input; only the signature script is touched by this file. -/
structure CTxIn where
  scriptSig : CScript
  deriving DecidableEq

/-- A transaction output. -/
structure CTxOut where
  nValue : Int
  scriptPubKey : CScript
  deriving DecidableEq

/-- A mutable transaction as far as `CreateGenesisBlock` builds it. -/
structure CMutableTransaction where
  nVersion : Int
  vin : List CTxIn
  vout : List CTxOut
  deriving DecidableEq

/-- A block: the six header fields and the transactions. -/
structure CBlock where
  nVersion : Int := 0
  hashPrevBlock : Nat := 0
  hashMerkleRoot : Nat := 0
  nTime : Nat := 0
  nBits : Nat := 0
  nNonce : Nat := 0
  vtx : List CMutableTransaction := []
  deriving DecidableEq

/-- A fixed seed entry of `chainparamsseeds.h`: 16 address bytes and a port. -/
structure SeedSpec6 where
  addr : List Nat
  port : Nat
  deriving DecidableEq

/-- Everything `chainparams.cpp` calls or reads that is defined elsewhere. -/
structure External where
  /-- `CBlockHeader::GetHash`, the identity hash of a block. -/
  GetHash : CBlock → Nat
  /-- `BlockMerkleRoot` of `consensus/merkle.h`. -/
  BlockMerkleRoot : CBlock → Nat
  /-- `SelectBaseParams` of `chainparamsbase`; it may throw. -/
  SelectBaseParams : String → Except ChainError Unit
  /-- `COIN` of `amount.h`. -/
  COIN : Int
  /-- `ParseHex` of `utilstrencodings.h`. -/
  ParseHex : String → List Nat
  /-- `pnSeed6_main` of `chainparamsseeds.h`. -/
  pnSeed6_main : List SeedSpec6
  /-- `pnSeed6_test` of `chainparamsseeds.h`. -/
  pnSeed6_test : List SeedSpec6

/-- The UTF-8 bytes of one code point. -/
def utf8Bytes (n : Nat) : List Nat :=
  if n < 0x80 then [n]
  else if n < 0x800 then [0xC0 + n / 64, 0x80 + n % 64]
  else if n < 0x10000 then [0xE0 + n / 4096, 0x80 + n / 64 % 64, 0x80 + n % 64]
  else [0xF0 + n / 262144, 0x80 + n / 4096 % 64, 0x80 + n / 64 % 64, 0x80 + n % 64]

/-- The bytes `pszTimestamp[0 .. strlen(pszTimestamp))` of a C string: its
encoded bytes up to, not including, the first NUL. -/
def cstrBytes (s : String) : List Nat :=
  ((s.toList.map (fun c => utf8Bytes c.toNat)).flatten).takeWhile (fun b => b != 0)

/-- `CreateGenesisBlock(pszTimestamp, genesisOutputScript, nTime, nNonce, nBits,
nVersion, genesisReward)`, lines 18-37. -/
def CreateGenesisBlockWith (E : External) (pszTimestamp : String) (genesisOutputScript : CScript)
    (nTime nNonce nBits : Nat) (nVersion : Int) (genesisReward : Int) : CBlock :=
  let txNew : CMutableTransaction :=
    { nVersion := 1
      vin := [{ scriptSig := [.int64 486604799, .scriptNum 4, .bytes (cstrBytes pszTimestamp)] }]
      vout := [{ nValue := genesisReward, scriptPubKey := genesisOutputScript }] }
  let genesis : CBlock := {}
  let genesis := { genesis with nTime := nTime }
  let genesis := { genesis with nBits := nBits }
  let genesis := { genesis with nNonce := nNonce }
  let genesis := { genesis with nVersion := nVersion }
  let genesis := { genesis with vtx := genesis.vtx ++ [txNew] }
  let genesis := { genesis with hashPrevBlock := 0 }
  { genesis with hashMerkleRoot := E.BlockMerkleRoot genesis }

/-- `CreateGenesisBlock(nTime, nNonce, nBits, nVersion, genesisReward)`, lines 50-55. -/
def CreateGenesisBlock (E : External) (nTime nNonce nBits : Nat) (nVersion : Int)
    (genesisReward : Int) : CBlock :=
  let pszTimestamp :=
    "2018, June 7th. A paper medium passed away in Japan, and the MANGA era began."
  let genesisOutputScript : CScript :=
    [.opcode .OP_DUP, .opcode .OP_HASH160,
     .bytes (E.ParseHex "d2034f9e9ad09b1b32105a6efa47e19fdbabdfe4"),
     .opcode .OP_EQUALVERIFY, .opcode .OP_CHECKSIG]
  CreateGenesisBlockWith E pszTimestamp genesisOutputScript nTime nNonce nBits nVersion genesisReward

/-! ## Consensus parameters -/

namespace Consensus

/-- The version-bits deployments, the valid indices of `vDeployments`. -/
inductive DeploymentPos where
  | DEPLOYMENT_TESTDUMMY
  | DEPLOYMENT_CSV
  | DEPLOYMENT_SEGWIT
  deriving DecidableEq

/-- One entry of `vDeployments`. -/
structure BIP9Deployment where
  bit : Int
  nStartTime : Int
  nTimeout : Int
  deriving DecidableEq

/-- Modelled from the spec: the sentinel `NO_TIMEOUT` of `consensus/params.h`,
"never times out", the largest signed 64-bit value. -/
def BIP9Deployment.NO_TIMEOUT : Int := 2 ^ 63 - 1

/-- Modelled from the spec: the sentinel `ALWAYS_ACTIVE` of `consensus/params.h`,
"active from genesis", the value -1. -/
def BIP9Deployment.ALWAYS_ACTIVE : Int := -1

/-- The consensus fields assigned in `chainparams.cpp`. A scalar member that
one of the three constructors never assigns is an `Option`, and `none` is its
state after such a constructor (no value was stored). -/
structure Params where
  hashGenesisBlock : Nat
  nSubsidyHalvingInterval : Int
  BIP16Height : Option Int
  BIP34Height : Int
  BIP34Hash : Nat
  BIP65Height : Int
  BIP66Height : Int
  powLimit : Nat
  nPowTargetTimespan : Int
  nPowTargetSpacing : Int
  nPowTargetTimespanDigishield : Int
  fPowAllowMinDifficultyBlocks : Bool
  fPowNoRetargeting : Bool
  nRuleChangeActivationThreshold : Nat
  nMinerConfirmationWindow : Nat
  vDeployments : DeploymentPos → BIP9Deployment
  nMinimumChainWork : Nat
  defaultAssumeValid : Nat
  nSubsidyAmount : Option Int
  nSubsidyBlankHeight : Option Int

end Consensus

open Consensus

/-! ## The parameter bundle -/

/-- The indices of `base58Prefixes`. -/
inductive Base58Type where
  | PUBKEY_ADDRESS
  | SCRIPT_ADDRESS
  | SCRIPT_ADDRESS2
  | SECRET_KEY
  | EXT_PUBLIC_KEY
  | EXT_SECRET_KEY
  | OLD_SECRET_KEY
  deriving DecidableEq

/-- The indices of `vAlertPubKey`. -/
inductive AlertKeyType where
  | MAIN_KEY
  | SUB_KEY
  deriving DecidableEq

/-- A `std::map<int, uint256>`: entries sorted by strictly increasing key. -/
abbrev MapCheckpoints := List (Int × Nat)

/-- Insertion of one pair into a `std::map`; an existing key keeps its value. -/
def mapInsert (k : Int) (v : Nat) : MapCheckpoints → MapCheckpoints
  | [] => [(k, v)]
  | (k0, v0) :: rest =>
    if k < k0 then (k, v) :: (k0, v0) :: rest
    else if k = k0 then (k0, v0) :: rest
    else (k0, v0) :: mapInsert k v rest

/-- Construction of a `std::map` from a braced list of pairs, inserted in order. -/
def mapOfList (l : List (Int × Nat)) : MapCheckpoints :=
  l.foldl (fun m kv => mapInsert kv.1 kv.2 m) []

/-- Lookup of a key in a `std::map`. -/
def mapFind (m : MapCheckpoints) (k : Int) : Option Nat :=
  (m.find? (fun kv => kv.1 == k)).map (fun kv => kv.2)

/-- The checkpoint table of a bundle. -/
structure CCheckpointData where
  mapCheckpoints : MapCheckpoints
  deriving DecidableEq

/-- A `double` literal of the source, kept exactly as `digits / 10 ^ scale`. -/
structure DoubleLiteral where
  digits : Nat
  scale : Nat
  deriving DecidableEq

/-- The progress estimate of a bundle. -/
structure ChainTxData where
  nTime : Int
  nTxCount : Int
  dTxRate : DoubleLiteral
  deriving DecidableEq

/-- The members of `CChainParams` assigned in `chainparams.cpp`. -/
structure CChainParams where
  strNetworkID : String
  consensus : Params
  nSwitchKGWblock : Int
  nSwitchDIGIblock : Int
  nSwitchLyra2REv2_DGW : Int
  pchMessageStart : List Nat
  nDefaultPort : Int
  nPruneAfterHeight : Nat
  vAlertPubKey : AlertKeyType → List Nat
  genesis : CBlock
  vSeeds : List (String × Bool)
  base58Prefixes : Base58Type → List Nat
  bech32_hrp : String
  vFixedSeeds : List SeedSpec6
  fDefaultConsistencyChecks : Bool
  fRequireStandard : Bool
  fMineBlocksOnDemand : Bool
  checkpointData : CCheckpointData
  chainTxData : ChainTxData

/-- `CChainParams::UpdateVersionBitsParameters`, lines 57-61. -/
def CChainParams.UpdateVersionBitsParameters (self : CChainParams) (d : DeploymentPos)
    (nStartTime nTimeout : Int) : CChainParams :=
  let self := { self with consensus := { self.consensus with
    vDeployments := Function.update self.consensus.vDeployments d
      { self.consensus.vDeployments d with nStartTime := nStartTime } } }
  { self with consensus := { self.consensus with
    vDeployments := Function.update self.consensus.vDeployments d
      { self.consensus.vDeployments d with nTimeout := nTimeout } } }

/-! ## Checkpoint tables -/

/-- The braced list assigned to `checkpointData` in `CMainParams`, lines 159-174, in source order. -/
def mainCheckpointEntries : List (Int × String) :=
  [(0, "0xe0b0b95cc209e17dd4280e3ab830256783d89ef714accce540232da33e2b320a"),
   (1000, "0x68bbbc087c8e1bb74408e95a9752ac6587fa95e2ef151e4da1829defda557dc4"),
   (3000, "0x03244c04dcca0be9f4cb94cf15a0bfa3c8e35cb0793862cb71dd8de0b0927298"),
   (5000, "0x1d8cc09f798eeba22d1a199136d05b8ba80c95410e7a567546d7ddcccfc17a2d"),
   (7000, "0x54a4f69da2152547b0b1cf94ca216c2b244fc871fd949feda7b549f3dd6e5cfe"),
   (9000, "0xe0299f12702b7da5e86be95f879f7842a895ee3842b85c5010477c269afc3a37"),
   (10000, "0x22743d431cac4ae66ffcb29a27ee294fd862202490b9ecf440de55bc9aba7cef"),
   (20000, "0xe26b767c727e8f98666a7ddec02d7c6d494891f9c9f160d28ff62add858eb8e8"),
   (30000, "0xaefc30184882696425353b0cb1aa20ff912d0c0b58a574cb6c2a86f210589247"),
   (40000, "0x21b02f0e2336d5a8193b1afd2defa0cee11c05e11c967e2473a66acee23312d6"),
   (50000, "0x8109aaaa785f413259cffb4855dcd270c980b22bfb23c0d2dd3f68136e330067"),
   (60000, "0xf0e4d8880f25b4a12cd637649e50b5451517e5b5a97761067d1157578ab87de6")]

/-- The braced list assigned to `checkpointData` in `CTestNetParams`, lines 271-276. -/
def testCheckpointEntries : List (Int × String) :=
  [(0, "0x39c55d04ea8b5117abb84809c862a9d17212bdae22115bef80f6a508f2a24ab6"),
   (1942, "0x082beec281f3e7d2eb2dc4400baf526ee4b5713b27226c46fa9c83a61e84b0d9")]

/-- The braced list assigned to `checkpointData` in `CRegTestParams`, lines 350-354. -/
def regtestCheckpointEntries : List (Int × String) :=
  [(0, "3121f07c5791eea22d053e5a5fcfef0032a2ed38b434a7a53639c63b2ca74718")]

/-- The `CCheckpointData` built from a braced list: each literal goes through
`uint256S` and the pairs initialise the `std::map`. -/
def checkpointsOf (entries : List (Int × String)) : CCheckpointData :=
  { mapCheckpoints := mapOfList (entries.map (fun e => (e.1, uint256S e.2))) }

/-! ## The three networks -/

/-- The genesis block of the main network, line 134. -/
def mainGenesis (E : External) : CBlock :=
  CreateGenesisBlock E 1532145131 0xE918 0x1F0FFFFF 1 3500000358212617622

/-- The genesis block of the test network, line 244. -/
def testGenesis (E : External) : CBlock :=
  CreateGenesisBlock E 1531637354 0xE1E6 0x2000FFFF 1 3500000250039000130

/-- The genesis block of the regression-test network, line 338. -/
def regtestGenesis (E : External) : CBlock :=
  CreateGenesisBlock E 1296688602 1 0x207fffff 1 (50 * E.COIN)

/-- The members of a `CMainParams` object as the assignments of the constructor,
lines 76-183, leave them. `1.5 * 60` is a `double` product, exactly 90. -/
def CMainParams.assigned (E : External) : CChainParams :=
  let genesis := mainGenesis E
  let hashGenesisBlock := E.GetHash genesis
  let nPowTargetSpacing : Int := 90
  { strNetworkID := "main"
    consensus :=
      { nSubsidyHalvingInterval := 700979
        BIP16Height := some 0
        BIP34Height := 0
        BIP34Hash := uint256S "e0b0b95cc209e17dd4280e3ab830256783d89ef714accce540232da33e2b320a"
        BIP65Height := -1
        BIP66Height := -1
        powLimit := uint256S "000fffffffffffffffffffffffffffffffffffffffffffffffffffffffffffff"
        nPowTargetTimespan := 30 * 60
        nPowTargetSpacing := nPowTargetSpacing
        nPowTargetTimespanDigishield := 90
        fPowAllowMinDifficultyBlocks := false
        fPowNoRetargeting := false
        nRuleChangeActivationThreshold := 7560
        nMinerConfirmationWindow := 10080
        vDeployments := fun d =>
          match d with
          | .DEPLOYMENT_TESTDUMMY => { bit := 28, nStartTime := 1199145601, nTimeout := 1230767999 }
          | .DEPLOYMENT_CSV => { bit := 0, nStartTime := 1532185200, nTimeout := 1537542000 }
          | .DEPLOYMENT_SEGWIT => { bit := 1, nStartTime := 1532185200, nTimeout := 1537542000 }
        nMinimumChainWork := uint256S "00000000000000000000000000000000000000000000000000bbd2a540b18171"
        defaultAssumeValid := uint256S "0xe0b0b95cc209e17dd4280e3ab830256783d89ef714accce540232da33e2b320a"
        nSubsidyAmount := some (10714 * E.COIN)
        nSubsidyBlankHeight := some (2 * 24 * 3600 / nPowTargetSpacing)
        hashGenesisBlock := hashGenesisBlock }
    nSwitchKGWblock := -1
    nSwitchDIGIblock := -1
    nSwitchLyra2REv2_DGW := 1
    pchMessageStart := [0x12, 0x34, 0x56, 0x78]
    nDefaultPort := 18730
    nPruneAfterHeight := 100000
    vAlertPubKey := fun k =>
      match k with
      | .MAIN_KEY => E.ParseHex "04a249957c97bd85571858786e6383d1e9b6d323ecad813b63cb52c8da86d56def2e9974dbb5c1c749aa9cf34f3f175aba43e22898f176eceec591f045b1d37a68"
      | .SUB_KEY => E.ParseHex "04a249957c97bd85571858786e6383d1e9b6d323ecad813b63cb52c8da86d56def2e9974dbb5c1c749aa9cf34f3f175aba43e22898f176eceec591f045b1d37a68"
    genesis := genesis
    vSeeds := [("dnsseed.manga-core.com", false), ("dnsseed.fthservice.com", false)]
    base58Prefixes := fun t =>
      match t with
      | .PUBKEY_ADDRESS => List.replicate 1 21
      | .SCRIPT_ADDRESS => List.replicate 1 15
      | .SCRIPT_ADDRESS2 => List.replicate 1 15
      | .SECRET_KEY => List.replicate 1 115
      | .EXT_PUBLIC_KEY => [0x1e, 0xb2, 0x88, 0x04]
      | .EXT_SECRET_KEY => [0xe4, 0xad, 0x88, 0x04]
      | .OLD_SECRET_KEY => List.replicate 1 115
    bech32_hrp := "arkr"
    vFixedSeeds := E.pnSeed6_main
    fDefaultConsistencyChecks := false
    fRequireStandard := true
    fMineBlocksOnDemand := false
    checkpointData := checkpointsOf mainCheckpointEntries
    chainTxData := { nTime := 1538307671, nTxCount := 92049, dTxRate := { digits := 1493686, scale := 8 } } }

/-- The constructor `CMainParams::CMainParams`: the members are assigned and the two
`assert`s of lines 136-137 are evaluated on them; a failed `assert` aborts. -/
def CMainParams (E : External) : Except ChainError CChainParams :=
  let self := CMainParams.assigned E
  if self.consensus.hashGenesisBlock ≠ uint256S "0xe0b0b95cc209e17dd4280e3ab830256783d89ef714accce540232da33e2b320a" then
    .error .assertion_failed
  else if self.genesis.hashMerkleRoot ≠ uint256S "0x7f7fd8e22ea946489fedb1151fdc397dfc666d474654edc155f07fec6ee64bb2" then
    .error .assertion_failed
  else .ok self

/-- The members of a `CTestNetParams` object as the assignments of the
constructor, lines 191-286, leave them. `consensus.BIP16Height` is not assigned.
`1.1 * 24 * 60 * 60` is a `double` slightly above 95040 and is stored truncated;
`1.5 * 60` is exactly 90. -/
def CTestNetParams.assigned (E : External) : CChainParams :=
  let genesis := testGenesis E
  let hashGenesisBlock := E.GetHash genesis
  let nPowTargetSpacing : Int := 90
  { strNetworkID := "test"
    consensus :=
      { nSubsidyHalvingInterval := 3000010
        BIP16Height := none
        BIP34Height := 0
        BIP34Hash := uint256S "39c55d04ea8b5117abb84809c862a9d17212bdae22115bef80f6a508f2a24ab6"
        BIP65Height := -1
        BIP66Height := -1
        powLimit := uint256S "00ffffffffffffffffffffffffffffffffffffffffffffffffffffffffffffff"
        nPowTargetTimespan := 95040
        nPowTargetSpacing := nPowTargetSpacing
        nPowTargetTimespanDigishield := 90
        fPowAllowMinDifficultyBlocks := true
        fPowNoRetargeting := false
        nRuleChangeActivationThreshold := 75
        nMinerConfirmationWindow := 100
        vDeployments := fun d =>
          match d with
          | .DEPLOYMENT_TESTDUMMY => { bit := 28, nStartTime := 1199145601, nTimeout := 1230767999 }
          | .DEPLOYMENT_CSV => { bit := 0, nStartTime := 1531837800, nTimeout := 1531873800 }
          | .DEPLOYMENT_SEGWIT => { bit := 1, nStartTime := 1531837800, nTimeout := 1531873800 }
        nMinimumChainWork := uint256S "0x0000000000000000000000000000000000000000000000000000007a577bc240"
        defaultAssumeValid := uint256S "0x39c55d04ea8b5117abb84809c862a9d17212bdae22115bef80f6a508f2a24ab6"
        nSubsidyAmount := some (2500 * E.COIN)
        nSubsidyBlankHeight := some (30 * 60 / nPowTargetSpacing)
        hashGenesisBlock := hashGenesisBlock }
    pchMessageStart := [0xab, 0xcd, 0xef, 0x99]
    nSwitchKGWblock := -1
    nSwitchDIGIblock := -1
    nSwitchLyra2REv2_DGW := 1
    nDefaultPort := 23730
    nPruneAfterHeight := 1000
    vAlertPubKey := fun k =>
      match k with
      | .MAIN_KEY => E.ParseHex "04a249957c97bd85571858786e6383d1e9b6d323ecad813b63cb52c8da86d56def2e9974dbb5c1c749aa9cf34f3f175aba43e22898f176eceec591f045b1d37a68"
      | .SUB_KEY => E.ParseHex "04a249957c97bd85571858786e6383d1e9b6d323ecad813b63cb52c8da86d56def2e9974dbb5c1c749aa9cf34f3f175aba43e22898f176eceec591f045b1d37a68"
    genesis := genesis
    vSeeds := [("dnsseed.manga-core.com", false), ("dnsseed.fthservice.com", false)]
    base58Prefixes := fun t =>
      match t with
      | .PUBKEY_ADDRESS => List.replicate 1 25
      | .SCRIPT_ADDRESS => List.replicate 1 19
      | .SCRIPT_ADDRESS2 => List.replicate 1 19
      | .SECRET_KEY => List.replicate 1 233
      | .EXT_PUBLIC_KEY => [0xcf, 0x87, 0x35, 0x04]
      | .EXT_SECRET_KEY => [0x94, 0x83, 0x35, 0x04]
      | .OLD_SECRET_KEY => List.replicate 1 233
    bech32_hrp := "thene"
    vFixedSeeds := E.pnSeed6_test
    fDefaultConsistencyChecks := false
    fRequireStandard := false
    fMineBlocksOnDemand := false
    checkpointData := checkpointsOf testCheckpointEntries
    chainTxData := { nTime := 1531837006, nTxCount := 1969, dTxRate := { digits := 986216, scale := 8 } } }

/-- The constructor `CTestNetParams::CTestNetParams`: the members are assigned and the two
`assert`s of lines 246-247 are evaluated on them; a failed `assert` aborts. -/
def CTestNetParams (E : External) : Except ChainError CChainParams :=
  let self := CTestNetParams.assigned E
  if self.consensus.hashGenesisBlock ≠ uint256S "0x39c55d04ea8b5117abb84809c862a9d17212bdae22115bef80f6a508f2a24ab6" then
    .error .assertion_failed
  else if self.genesis.hashMerkleRoot ≠ uint256S "0x8f85a3537367aa9a83bec83d70d1a71a54e79354bf875afd96a211d1754ab66e" then
    .error .assertion_failed
  else .ok self

/-- The members of a `CRegTestParams` object as the assignments of the
constructor, lines 294-371, leave them. `consensus.nSubsidyAmount`,
`consensus.nSubsidyBlankHeight` and `vAlertPubKey` are not assigned; the seed
vectors are cleared. -/
def CRegTestParams.assigned (E : External) : CChainParams :=
  let genesis := regtestGenesis E
  let hashGenesisBlock := E.GetHash genesis
  { strNetworkID := "regtest"
    consensus :=
      { nSubsidyHalvingInterval := 150
        BIP16Height := some 0
        BIP34Height := -1
        BIP34Hash := 0
        BIP65Height := -1
        BIP66Height := -1
        powLimit := uint256S "7fffffffffffffffffffffffffffffffffffffffffffffffffffffffffffffff"
        nPowTargetTimespan := 95040
        nPowTargetSpacing := 90
        nPowTargetTimespanDigishield := 90
        fPowAllowMinDifficultyBlocks := true
        fPowNoRetargeting := true
        nRuleChangeActivationThreshold := 108
        nMinerConfirmationWindow := 144
        vDeployments := fun d =>
          match d with
          | .DEPLOYMENT_TESTDUMMY =>
            { bit := 28, nStartTime := 0, nTimeout := BIP9Deployment.NO_TIMEOUT }
          | .DEPLOYMENT_CSV =>
            { bit := 0, nStartTime := 0, nTimeout := BIP9Deployment.NO_TIMEOUT }
          | .DEPLOYMENT_SEGWIT =>
            { bit := 1, nStartTime := BIP9Deployment.ALWAYS_ACTIVE,
              nTimeout := BIP9Deployment.NO_TIMEOUT }
        nMinimumChainWork := uint256S "0x00"
        defaultAssumeValid := uint256S "0x00"
        nSubsidyAmount := none
        nSubsidyBlankHeight := none
        hashGenesisBlock := hashGenesisBlock }
    nSwitchKGWblock := 20
    nSwitchDIGIblock := 40
    nSwitchLyra2REv2_DGW := 60
    pchMessageStart := [0xfa, 0xbf, 0xb5, 0xda]
    nDefaultPort := 20444
    nPruneAfterHeight := 1000
    vAlertPubKey := fun _ => []
    genesis := genesis
    vFixedSeeds := []
    vSeeds := []
    fDefaultConsistencyChecks := true
    fRequireStandard := false
    fMineBlocksOnDemand := true
    checkpointData := checkpointsOf regtestCheckpointEntries
    chainTxData := { nTime := 0, nTxCount := 0, dTxRate := { digits := 0, scale := 0 } }
    base58Prefixes := fun t =>
      match t with
      | .PUBKEY_ADDRESS => List.replicate 1 111
      | .SCRIPT_ADDRESS => List.replicate 1 196
      | .SCRIPT_ADDRESS2 => List.replicate 1 117
      | .SECRET_KEY => List.replicate 1 239
      | .EXT_PUBLIC_KEY => [0x04, 0x35, 0x87, 0xCF]
      | .EXT_SECRET_KEY => [0x04, 0x35, 0x83, 0x94]
      | .OLD_SECRET_KEY => List.replicate 1 239
    bech32_hrp := "rmona" }

/-- The constructor `CRegTestParams::CRegTestParams`: the members are assigned and the
`assert` of line 340 is evaluated on them; a failed `assert` aborts. The
merkle-root `assert` of line 341 is commented out in the source and is not
evaluated. -/
def CRegTestParams (E : External) : Except ChainError CChainParams :=
  let self := CRegTestParams.assigned E
  if self.consensus.hashGenesisBlock ≠ uint256S "0x7543a69d7c2fcdb29a5ebec2fc064c074a35253b6f3072c8a749473aa590a29c" then
    .error .assertion_failed
  else .ok self

/-! ## The registry -/

/-- Modelled from the spec: `CBaseChainParams::MAIN` of `chainparamsbase`, the
network identifier string "main". -/
def CBaseChainParams.MAIN : String := "main"

/-- Modelled from the spec: `CBaseChainParams::TESTNET` of `chainparamsbase`, the
network identifier string "test". -/
def CBaseChainParams.TESTNET : String := "test"

/-- Modelled from the spec: `CBaseChainParams::REGTEST` of `chainparamsbase`, the
network identifier string "regtest". -/
def CBaseChainParams.REGTEST : String := "regtest"

/-- `CreateChainParams`, lines 381-390. The message of the exception is
`strprintf("%s: Unknown chain %s.", __func__, chain)`. -/
def CreateChainParams (E : External) (chain : String) : Except ChainError CChainParams :=
  if chain = CBaseChainParams.MAIN then CMainParams E
  else if chain = CBaseChainParams.TESTNET then CTestNetParams E
  else if chain = CBaseChainParams.REGTEST then CRegTestParams E
  else .error (.runtime_error ("CreateChainParams: Unknown chain " ++ chain ++ "."))

/-- The state of the registry: the static `globalChainParams`, line 374; `none`
is the empty `unique_ptr`. -/
abbrev Registry := Option CChainParams

/-- The registry at program start: a static `unique_ptr` is empty. -/
def globalChainParamsInit : Registry := none

/-- `Params()`, lines 376-379. -/
def Params (globalChainParams : Registry) : Except ChainError CChainParams :=
  match globalChainParams with
  | none => .error .assertion_failed
  | some p => .ok p

/-- `SelectParams`, lines 392-396: the outcome of the call and the registry after
it. An exception of `SelectBaseParams` or `CreateChainParams` leaves before the
assignment, so the registry is then the one before the call. -/
def SelectParams (E : External) (network : String) (globalChainParams : Registry) :
    Except ChainError Unit × Registry :=
  match E.SelectBaseParams network with
  | .error e => (.error e, globalChainParams)
  | .ok () =>
    match CreateChainParams E network with
    | .error e => (.error e, globalChainParams)
    | .ok p => (.ok (), some p)

/-- The free function `UpdateVersionBitsParameters`, lines 398-401: the outcome
and the registry after the call. -/
def UpdateVersionBitsParameters (d : DeploymentPos) (nStartTime nTimeout : Int)
    (globalChainParams : Registry) : Except ChainError Unit × Registry :=
  match globalChainParams with
  | none => (.error .null_dereference, none)
  | some p => (.ok (), some (p.UpdateVersionBitsParameters d nStartTime nTimeout))

/-- A hypothetical environment in which the hash and merkle-root functions
return the literals pinned for the main and test networks and the hash literal
pinned for regtest (told apart by the genesis time stamp), so that all three
constructors complete. The regtest merkle root is zero here. Its main and test
branches agree with `standardEnv`; its regtest branch does not: under the
standard hashing the regtest genesis hash is not the pinned literal. -/
def sampleEnv : External where
  GetHash := fun b =>
    if b.nTime = 1532145131 then uint256S "0xe0b0b95cc209e17dd4280e3ab830256783d89ef714accce540232da33e2b320a"
    else if b.nTime = 1531637354 then uint256S "0x39c55d04ea8b5117abb84809c862a9d17212bdae22115bef80f6a508f2a24ab6"
    else uint256S "0x7543a69d7c2fcdb29a5ebec2fc064c074a35253b6f3072c8a749473aa590a29c"
  BlockMerkleRoot := fun b =>
    if b.nTime = 1532145131 then uint256S "0x7f7fd8e22ea946489fedb1151fdc397dfc666d474654edc155f07fec6ee64bb2"
    else if b.nTime = 1531637354 then uint256S "0x8f85a3537367aa9a83bec83d70d1a71a54e79354bf875afd96a211d1754ab66e"
    else 0
  SelectBaseParams := fun _ => .ok ()
  COIN := 100000000
  ParseHex := fun _ => []
  pnSeed6_main := []
  pnSeed6_test := []

/-! ## Hashing and serialization

`CBlockHeader::GetHash`, `BlockMerkleRoot`, the serialization of transactions
and scripts, `ParseHex` and `COIN` are not part of `chainparams.cpp`. The
definitions of this section model them; `standardEnv` collects them. The model
is checked against the spec's production example: it reproduces the pinned
identity hash and merkle root of the main and of the test network. -/

/-- The largest `r` below `2 ^ bits` (added to a start `r`) with `r ^ k ≤ n`,
found bit by bit from the top: the integer `k`-th root of `n`. -/
def rootBits (k n : Nat) : Nat → Nat → Nat
  | 0, r => r
  | b + 1, r => if (r + 2 ^ b) ^ k ≤ n then rootBits k n b (r + 2 ^ b) else rootBits k n b r

/-- The first 64 primes, 2 to 311: the numbers below 312 that no prime up to 17
divides properly. -/
def sha256Primes : List Nat :=
  (List.range 312).filter
    (fun n => decide (2 ≤ n) && [2, 3, 5, 7, 11, 13, 17].all (fun d => d == n || n % d != 0))

/-- The round constants of SHA-256 (FIPS 180-4): the first 32 bits of the
fractional parts of the cube roots of the first 64 primes. -/
def sha256K : List Nat :=
  sha256Primes.map (fun q => rootBits 3 (q * 2 ^ 96) 48 0 % 2 ^ 32)

/-- The initial hash value of SHA-256 (FIPS 180-4): the first 32 bits of the
fractional parts of the square roots of the first 8 primes. -/
def sha256Init : List Nat :=
  (sha256Primes.take 8).map (fun q => rootBits 2 (q * 2 ^ 64) 48 0 % 2 ^ 32)

/-- Rotation of a 32-bit word to the right. -/
def rotr32 (x n : Nat) : Nat := ((x >>> n) ||| (x <<< (32 - n))) % 2 ^ 32

/-- Addition of 32-bit words. -/
def add32 (a b : Nat) : Nat := (a + b) % 2 ^ 32

/-- The `k` low bytes of `v`, most significant first. -/
def beBytes : Nat → Nat → List Nat
  | 0, _ => []
  | k + 1, v => (v / 256 ^ k) % 256 :: beBytes k v

/-- The `k` low bytes of `v`, least significant first. -/
def leBytes : Nat → Nat → List Nat
  | 0, _ => []
  | k + 1, v => v % 256 :: leBytes k (v / 256)

/-- The padded message of SHA-256: a `0x80` byte, zero bytes up to 56 modulo 64,
and the bit length as 8 bytes. -/
def sha256Pad (msg : List Nat) : List Nat :=
  msg ++ [0x80] ++ List.replicate ((119 - msg.length % 64) % 64) 0 ++ beBytes 8 (8 * msg.length)

/-- The first `k` big-endian 32-bit words of a byte sequence. -/
def beWords : Nat → List Nat → List Nat
  | 0, _ => []
  | k + 1, b0 :: b1 :: b2 :: b3 :: rest =>
    (((b0 * 256 + b1) * 256 + b2) * 256 + b3) :: beWords k rest
  | _ + 1, _ => []

/-- The message schedule of SHA-256, extended by `k` words. -/
def sha256Schedule : Nat → List Nat → List Nat
  | 0, w => w
  | k + 1, w =>
    let n := w.length
    let w15 := w.getD (n - 15) 0
    let w2 := w.getD (n - 2) 0
    let s0 := (rotr32 w15 7 ^^^ rotr32 w15 18) ^^^ (w15 >>> 3)
    let s1 := (rotr32 w2 17 ^^^ rotr32 w2 19) ^^^ (w2 >>> 10)
    sha256Schedule k
      (w ++ [add32 (add32 (add32 (w.getD (n - 16) 0) s0) (w.getD (n - 7) 0)) s1])

/-- One round of the SHA-256 compression function on the working variables
`a .. h`, with round constant `kw.1` and schedule word `kw.2`. -/
def sha256Round (s : List Nat) (kw : Nat × Nat) : List Nat :=
  match s with
  | [a, b, c, d, e, f, g, h] =>
    let S1 := (rotr32 e 6 ^^^ rotr32 e 11) ^^^ rotr32 e 25
    let ch := (e &&& f) ^^^ ((e ^^^ 0xffffffff) &&& g)
    let t1 := add32 (add32 (add32 (add32 h S1) ch) kw.1) kw.2
    let S0 := (rotr32 a 2 ^^^ rotr32 a 13) ^^^ rotr32 a 22
    let maj := ((a &&& b) ^^^ (a &&& c)) ^^^ (b &&& c)
    let t2 := add32 S0 maj
    [add32 t1 t2, a, b, c, add32 d t1, e, f, g]
  | _ => s

/-- The compression of one 64-byte block into the hash value. -/
def sha256Compress (h : List Nat) (block : List Nat) : List Nat :=
  List.zipWith add32 h
    ((sha256K.zip (sha256Schedule 48 (beWords 16 block))).foldl sha256Round h)

/-- The first `k` 64-byte blocks of a byte sequence. -/
def sha256Blocks : Nat → List Nat → List (List Nat)
  | 0, _ => []
  | k + 1, bs => bs.take 64 :: sha256Blocks k (bs.drop 64)

/-- SHA-256 of a byte sequence, as 32 bytes. -/
def sha256 (msg : List Nat) : List Nat :=
  (((sha256Blocks ((sha256Pad msg).length / 64) (sha256Pad msg)).foldl
    sha256Compress sha256Init).map (beBytes 4)).flatten

/-- Modelled from the spec: the "double-cryptographic-hash" of section 4.1, the
`Hash` of `hash.h`, not part of the sources at hand: SHA-256 applied twice. -/
def Hash256 (msg : List Nat) : List Nat := sha256 (sha256 msg)

/-- The `uint256` whose byte `i` is the `i`-th byte of a digest. -/
def uint256OfBytes (bs : List Nat) : Nat := bs.foldr (fun b acc => b + 256 * acc) 0

/-- The 32 bytes of a `uint256`, byte 0 first. -/
def uint256Bytes (v : Nat) : List Nat := leBytes 32 v

/-- The bytes of a magnitude, least significant first, without leading zero
bytes; at most `fuel` of them. -/
def magnitudeBytes : Nat → Nat → List Nat
  | 0, _ => []
  | fuel + 1, v => if v = 0 then [] else v % 256 :: magnitudeBytes fuel (v / 256)

/-- The bytes of `CScriptNum::serialize` of a 64-bit value: the magnitude least
significant byte first, with the sign in the top bit of the last byte. -/
def scriptNumBytes (n : Int) : List Nat :=
  if n = 0 then []
  else
    let mag := magnitudeBytes 8 n.natAbs
    if 0x80 ≤ mag.getLastD 0 then mag ++ [if n < 0 then 0x80 else 0]
    else if n < 0 then mag.dropLast ++ [mag.getLastD 0 + 0x80]
    else mag

/-- The push of a byte vector onto a script: a length opcode, `OP_PUSHDATA1`,
`OP_PUSHDATA2` or `OP_PUSHDATA4` with the length, then the bytes. -/
def pushDataBytes (v : List Nat) : List Nat :=
  if v.length < 0x4c then v.length :: v
  else if v.length ≤ 0xff then 0x4c :: v.length :: v
  else if v.length ≤ 0xffff then 0x4d :: (leBytes 2 v.length ++ v)
  else 0x4e :: (leBytes 4 v.length ++ v)

/-- The byte of an opcode. -/
def opcodetype.byte : opcodetype → Nat
  | .OP_DUP => 0x76
  | .OP_HASH160 => 0xa9
  | .OP_EQUALVERIFY => 0x88
  | .OP_CHECKSIG => 0xac

/-- The bytes one `operator<<` appends to a `CScript`: an `int64_t` of -1 or
1..16 is a single opcode, 0 is `OP_0`, any other is pushed as a script number;
a `CScriptNum` and a byte vector are pushed as data. -/
def ScriptItem.bytesOf : ScriptItem → List Nat
  | .int64 n =>
    if n = -1 ∨ (1 ≤ n ∧ n ≤ 16) then [(n + 0x50).toNat]
    else if n = 0 then [0]
    else pushDataBytes (scriptNumBytes n)
  | .scriptNum n => pushDataBytes (scriptNumBytes n)
  | .bytes v => pushDataBytes v
  | .opcode o => [o.byte]

/-- The bytes of a script. -/
def scriptBytes (script : CScript) : List Nat := (script.map ScriptItem.bytesOf).flatten

/-- The compact-size encoding of a length. -/
def compactSize (n : Nat) : List Nat :=
  if n < 253 then [n]
  else if n ≤ 0xffff then 253 :: leBytes 2 n
  else if n ≤ 0xffffffff then 254 :: leBytes 4 n
  else 255 :: leBytes 8 n

/-- The serialization of a transaction input that was default-constructed and
given a signature script: a null previous output (zero hash, index
`0xffffffff`), the script, and the final sequence number. -/
def CTxIn.serialize (txin : CTxIn) : List Nat :=
  List.replicate 32 0 ++ leBytes 4 0xffffffff ++
    compactSize (scriptBytes txin.scriptSig).length ++ scriptBytes txin.scriptSig ++
    leBytes 4 0xffffffff

/-- The serialization of a transaction output: the value as 8 bytes and the
script. -/
def CTxOut.serialize (txout : CTxOut) : List Nat :=
  leBytes 8 (txout.nValue % 2 ^ 64).toNat ++
    compactSize (scriptBytes txout.scriptPubKey).length ++ scriptBytes txout.scriptPubKey

/-- The serialization of a transaction without witness data: version, inputs,
outputs and a lock time of zero. -/
def CMutableTransaction.serialize (tx : CMutableTransaction) : List Nat :=
  leBytes 4 (tx.nVersion % 2 ^ 32).toNat ++
    compactSize tx.vin.length ++ (tx.vin.map CTxIn.serialize).flatten ++
    compactSize tx.vout.length ++ (tx.vout.map CTxOut.serialize).flatten ++
    leBytes 4 0

/-- The hash of a transaction. -/
def CMutableTransaction.GetHash (tx : CMutableTransaction) : Nat :=
  uint256OfBytes (Hash256 tx.serialize)

/-- One level of the merkle tree: adjacent hashes are combined, the last one
with itself when it has no partner. -/
def merkleLevel : List Nat → List Nat
  | a :: b :: rest => uint256OfBytes (Hash256 (uint256Bytes a ++ uint256Bytes b)) :: merkleLevel rest
  | [a] => [uint256OfBytes (Hash256 (uint256Bytes a ++ uint256Bytes a))]
  | [] => []

/-- The root of the merkle tree over a list of hashes, by at most `fuel`
levels; the null hash for no leaf and the leaf itself for one leaf. -/
def computeMerkleRoot : Nat → List Nat → Nat
  | _, [] => 0
  | _, [a] => a
  | 0, a :: _ => a
  | fuel + 1, hashes => computeMerkleRoot fuel (merkleLevel hashes)

/-- Modelled from the spec: `BlockMerkleRoot` of `consensus/merkle.h`, not part of
the sources at hand: "the standard paired-hash-and-combine merkle construction
(degenerates to hash of the single transaction for a one-leaf tree)" over the
hashes of the block's transactions. -/
def BlockMerkleRootStd (block : CBlock) : Nat :=
  computeMerkleRoot block.vtx.length (block.vtx.map CMutableTransaction.GetHash)

/-- The 80-byte serialization of a block header: version, previous-block hash,
merkle root, time, bits, nonce. -/
def CBlock.serializeHeader (block : CBlock) : List Nat :=
  leBytes 4 (block.nVersion % 2 ^ 32).toNat ++ uint256Bytes block.hashPrevBlock ++
    uint256Bytes block.hashMerkleRoot ++ leBytes 4 block.nTime ++ leBytes 4 block.nBits ++
    leBytes 4 block.nNonce

/-- Modelled from the spec: `CBlockHeader::GetHash`, not part of the sources at
hand: "the double-cryptographic-hash of its header fields (timestamp, difficulty
encoding, nonce, version, previous-block hash fixed to the null/zero hash,
merkle root)". -/
def GetHashStd (block : CBlock) : Nat := uint256OfBytes (Hash256 block.serializeHeader)

/-- The bytes written as pairs of hexadecimal digits, up to the first character
pair that is not one. -/
def parseHexPairs : Nat → List Char → List Nat
  | 0, _ => []
  | fuel + 1, c0 :: c1 :: rest =>
    match hexDigit c0, hexDigit c1 with
    | some h, some l => (16 * h + l) :: parseHexPairs fuel rest
    | _, _ => []
  | _ + 1, _ => []

/-- Modelled from the spec: `ParseHex` of `utilstrencodings.h`, not part of the
sources at hand, on a literal of hexadecimal digit pairs (the "fixed public-key
hash" of the output script). -/
def ParseHexStd (s : String) : List Nat := parseHexPairs s.length s.toList

/-- The environment of the program as built: double SHA-256 over the standard
serialization for `GetHash` and `BlockMerkleRoot`, `COIN` of 100000000 base
units, `ParseHex` on digit pairs, and a base selection that throws on every
string other than the three identifiers. The seed tables, which no statement
reads, are left empty. -/
def standardEnv : External where
  GetHash := GetHashStd
  BlockMerkleRoot := BlockMerkleRootStd
  SelectBaseParams := fun chain =>
    if chain = "main" ∨ chain = "test" ∨ chain = "regtest" then .ok ()
    else .error (.runtime_error ("CreateBaseChainParams: Unknown chain " ++ chain ++ "."))
  COIN := 100000000
  ParseHex := ParseHexStd
  pnSeed6_main := []
  pnSeed6_test := []

/-! ## Predicates and literals used in the statements -/

/-- The literal of the merkle-root `assert` that is commented out in
`CRegTestParams`, line 341. -/
def regtestMerkleRootLiteral : String :=
  "0x97ddfbbae6be97fd6cdf3e7ca13232a3afff2353e29badfab7f73011edd4ced9"

/-- Whether a literal is an optional `0x` followed by exactly 64 hexadecimal
digits and nothing else. -/
def isHashLiteral (s : String) : Bool :=
  let digits := dropHexPrefix s.toList
  digits.length == 64 && digits.all isHexDigit

/-- Modelled from the spec: the decoding of a compact difficulty encoding
(`arith_uint256::SetCompact`, not part of the sources at hand), "a
floating-point-like compressed representation of a 256-bit proof-of-work
target": the exponent is the top byte, the mantissa is the low 23 bits, and the
target is `mantissa * 256 ^ (exponent - 3)` (a division when the exponent is
below 3). -/
def compactTarget (nBits : Nat) : Nat :=
  let exponent := nBits / 2 ^ 24
  let mantissa := nBits % 2 ^ 23
  if exponent ≤ 3 then mantissa / 256 ^ (3 - exponent) else mantissa * 256 ^ (exponent - 3)

/-- The sample environment with a base selection that, like `CreateChainParams`,
throws on every string other than the three identifiers. -/
def sampleEnvStrict : External :=
  { sampleEnv with
    SelectBaseParams := fun chain =>
      if chain = "main" ∨ chain = "test" ∨ chain = "regtest" then .ok ()
      else .error (.runtime_error ("CreateBaseChainParams: Unknown chain " ++ chain ++ ".")) }

/-! ## Auxiliary facts about the constructors -/

/-- A completed `CMainParams` is the assigned object and both pins hold. -/
theorem CMainParams_ok {E : External} {p : CChainParams} (h : CMainParams E = .ok p) :
    p = CMainParams.assigned E ∧
    E.GetHash (mainGenesis E) =
      uint256S "0xe0b0b95cc209e17dd4280e3ab830256783d89ef714accce540232da33e2b320a" ∧
    (mainGenesis E).hashMerkleRoot =
      uint256S "0x7f7fd8e22ea946489fedb1151fdc397dfc666d474654edc155f07fec6ee64bb2" := by
  unfold CMainParams at h
  simp only [] at h
  split_ifs at h with h1 h2
  have h1' := not_not.mp h1
  have h2' := not_not.mp h2
  cases h
  exact ⟨rfl, h1', h2'⟩

/-- A completed `CTestNetParams` is the assigned object and both pins hold. -/
theorem CTestNetParams_ok {E : External} {p : CChainParams} (h : CTestNetParams E = .ok p) :
    p = CTestNetParams.assigned E ∧
    E.GetHash (testGenesis E) =
      uint256S "0x39c55d04ea8b5117abb84809c862a9d17212bdae22115bef80f6a508f2a24ab6" ∧
    (testGenesis E).hashMerkleRoot =
      uint256S "0x8f85a3537367aa9a83bec83d70d1a71a54e79354bf875afd96a211d1754ab66e" := by
  unfold CTestNetParams at h
  simp only [] at h
  split_ifs at h with h1 h2
  have h1' := not_not.mp h1
  have h2' := not_not.mp h2
  cases h
  exact ⟨rfl, h1', h2'⟩

/-- A completed `CRegTestParams` is the assigned object and the hash pin holds. -/
theorem CRegTestParams_ok {E : External} {p : CChainParams} (h : CRegTestParams E = .ok p) :
    p = CRegTestParams.assigned E ∧
    E.GetHash (regtestGenesis E) =
      uint256S "0x7543a69d7c2fcdb29a5ebec2fc064c074a35253b6f3072c8a749473aa590a29c" := by
  unfold CRegTestParams at h
  simp only [] at h
  split_ifs at h with h1
  have h1' := not_not.mp h1
  cases h
  exact ⟨rfl, h1'⟩

/-- A network constructor either completes or aborts on an assertion. -/
theorem CMainParams_total (E : External) :
    CMainParams E = .ok (CMainParams.assigned E) ∨ CMainParams E = .error .assertion_failed := by
  unfold CMainParams
  simp only []
  split_ifs <;> simp

/-- A network constructor either completes or aborts on an assertion. -/
theorem CTestNetParams_total (E : External) :
    CTestNetParams E = .ok (CTestNetParams.assigned E) ∨
      CTestNetParams E = .error .assertion_failed := by
  unfold CTestNetParams
  simp only []
  split_ifs <;> simp

/-- A network constructor either completes or aborts on an assertion. -/
theorem CRegTestParams_total (E : External) :
    CRegTestParams E = .ok (CRegTestParams.assigned E) ∨
      CRegTestParams E = .error .assertion_failed := by
  unfold CRegTestParams
  simp only []
  split_ifs <;> simp

/-- Dispatch of `CreateChainParams` on the three identifiers. -/
theorem CreateChainParams_main (E : External) : CreateChainParams E "main" = CMainParams E := by
  simp [CreateChainParams, CBaseChainParams.MAIN]

/-- Dispatch of `CreateChainParams` on the three identifiers. -/
theorem CreateChainParams_test (E : External) :
    CreateChainParams E "test" = CTestNetParams E := by
  simp [CreateChainParams, CBaseChainParams.MAIN, CBaseChainParams.TESTNET]

/-- Dispatch of `CreateChainParams` on the three identifiers. -/
theorem CreateChainParams_regtest (E : External) :
    CreateChainParams E "regtest" = CRegTestParams E := by
  simp [CreateChainParams, CBaseChainParams.MAIN, CBaseChainParams.TESTNET,
    CBaseChainParams.REGTEST]

/-- Outside the three identifiers `CreateChainParams` throws. -/
theorem CreateChainParams_unknown (E : External) (chain : String)
    (h : ¬ (chain = "main" ∨ chain = "test" ∨ chain = "regtest")) :
    CreateChainParams E chain =
      .error (.runtime_error ("CreateChainParams: Unknown chain " ++ chain ++ ".")) := by
  simp only [not_or] at h
  obtain ⟨h1, h2, h3⟩ := h
  simp [CreateChainParams, CBaseChainParams.MAIN, CBaseChainParams.TESTNET,
    CBaseChainParams.REGTEST, h1, h2, h3]

/-- In the sample environment the main constructor completes. -/
theorem CMainParams_sampleEnv : CMainParams sampleEnv = .ok (CMainParams.assigned sampleEnv) := by
  rfl

/-- In the sample environment the test constructor completes. -/
theorem CTestNetParams_sampleEnv :
    CTestNetParams sampleEnv = .ok (CTestNetParams.assigned sampleEnv) := by
  rfl

/-- In the sample environment the regtest constructor completes. -/
theorem CRegTestParams_sampleEnv :
    CRegTestParams sampleEnv = .ok (CRegTestParams.assigned sampleEnv) := by
  rfl

/-- `CreateChainParams` never fails in a way other than the unknown-chain
exception or an assertion of a constructor. -/
theorem CreateChainParams_ok_cases {E : External} {chain : String} {p : CChainParams}
    (h : CreateChainParams E chain = .ok p) :
    (chain = "main" ∧ CMainParams E = .ok p) ∨ (chain = "test" ∧ CTestNetParams E = .ok p) ∨
      (chain = "regtest" ∧ CRegTestParams E = .ok p) := by
  by_cases h1 : chain = "main"
  · subst h1; rw [CreateChainParams_main] at h; exact Or.inl ⟨rfl, h⟩
  · by_cases h2 : chain = "test"
    · subst h2; rw [CreateChainParams_test] at h; exact Or.inr (Or.inl ⟨rfl, h⟩)
    · by_cases h3 : chain = "regtest"
      · subst h3; rw [CreateChainParams_regtest] at h; exact Or.inr (Or.inr ⟨rfl, h⟩)
      · rw [CreateChainParams_unknown E chain (by simp [h1, h2, h3])] at h
        cases h

/-- For one of the three identifiers `CreateChainParams` returns a bundle unless
a constructor aborts on an assertion. -/
theorem CreateChainParams_completes (E : External) (chain : String)
    (hn : chain = "main" ∨ chain = "test" ∨ chain = "regtest")
    (hassert : CreateChainParams E chain ≠ .error .assertion_failed) :
    ∃ p, CreateChainParams E chain = .ok p := by
  rcases hn with h | h | h
  · subst h
    rw [CreateChainParams_main] at hassert ⊢
    rcases CMainParams_total E with h | h
    · exact ⟨_, h⟩
    · exact absurd h hassert
  · subst h
    rw [CreateChainParams_test] at hassert ⊢
    rcases CTestNetParams_total E with h | h
    · exact ⟨_, h⟩
    · exact absurd h hassert
  · subst h
    rw [CreateChainParams_regtest] at hassert ⊢
    rcases CRegTestParams_total E with h | h
    · exact ⟨_, h⟩
    · exact absurd h hassert

/-! ## The constructors under the standard hashing -/

/-- The main constructor completes when both pins are reproduced. -/
theorem CMainParams_of_pins (E : External)
    (h1 : E.GetHash (mainGenesis E) = uint256S "0xe0b0b95cc209e17dd4280e3ab830256783d89ef714accce540232da33e2b320a")
    (h2 : (mainGenesis E).hashMerkleRoot = uint256S "0x7f7fd8e22ea946489fedb1151fdc397dfc666d474654edc155f07fec6ee64bb2") :
    CMainParams E = .ok (CMainParams.assigned E) := by
  unfold CMainParams
  simp only []
  split_ifs with a b
  · exact absurd h1 a
  · exact absurd h2 b
  · rfl

/-- The test constructor completes when both pins are reproduced. -/
theorem CTestNetParams_of_pins (E : External)
    (h1 : E.GetHash (testGenesis E) = uint256S "0x39c55d04ea8b5117abb84809c862a9d17212bdae22115bef80f6a508f2a24ab6")
    (h2 : (testGenesis E).hashMerkleRoot = uint256S "0x8f85a3537367aa9a83bec83d70d1a71a54e79354bf875afd96a211d1754ab66e") :
    CTestNetParams E = .ok (CTestNetParams.assigned E) := by
  unfold CTestNetParams
  simp only []
  split_ifs with a b
  · exact absurd h1 a
  · exact absurd h2 b
  · rfl

/-- The regtest constructor aborts when the hash pin is not reproduced. -/
theorem CRegTestParams_of_hash_ne (E : External)
    (h : E.GetHash (regtestGenesis E) ≠ uint256S "0x7543a69d7c2fcdb29a5ebec2fc064c074a35253b6f3072c8a749473aa590a29c") :
    CRegTestParams E = .error .assertion_failed := by
  unfold CRegTestParams
  simp only []
  split_ifs with a
  · rfl
  · exact absurd h a

/-- Known answers of the SHA-256 model: the first and last round constants, the
first initial word, and the digest of the three bytes "abc" (FIPS 180-4). -/
theorem sha256_known_answers :
    sha256K.length = 64 ∧ sha256K.head? = some 0x428a2f98 ∧
    sha256K.getLast? = some 0xc67178f2 ∧ sha256Init.head? = some 0x6a09e667 ∧
    uint256OfBytes (sha256 [0x61, 0x62, 0x63]).reverse =
      0xba7816bf8f01cfea414140de5dae2223b00361a396177a9cb410ff61f20015ad := by
  decide!

/-- Under the standard hashing the main genesis block has the pinned identity
hash and merkle root. -/
theorem mainGenesis_digests :
    standardEnv.GetHash (mainGenesis standardEnv) = uint256S "0xe0b0b95cc209e17dd4280e3ab830256783d89ef714accce540232da33e2b320a" ∧
    (mainGenesis standardEnv).hashMerkleRoot = uint256S "0x7f7fd8e22ea946489fedb1151fdc397dfc666d474654edc155f07fec6ee64bb2" := by
  decide!

/-- Under the standard hashing the test genesis block has the pinned identity
hash and merkle root. -/
theorem testGenesis_digests :
    standardEnv.GetHash (testGenesis standardEnv) = uint256S "0x39c55d04ea8b5117abb84809c862a9d17212bdae22115bef80f6a508f2a24ab6" ∧
    (testGenesis standardEnv).hashMerkleRoot = uint256S "0x8f85a3537367aa9a83bec83d70d1a71a54e79354bf875afd96a211d1754ab66e" := by
  decide!

/-- Under the standard hashing the regtest genesis block has the identity hash
`77abb7c3...` and the merkle root `6074c0c6...`. -/
theorem regtestGenesis_digests :
    standardEnv.GetHash (regtestGenesis standardEnv) =
      0x77abb7c360a995a03ff62d3231436d2e827f8ddc9a6150d1e35cbf3e4b811462 ∧
    (regtestGenesis standardEnv).hashMerkleRoot =
      0x6074c0c6b30c2b932a1c728006a7d2e648b455a2a5d40a3d1ec4f1b290b3401d := by
  decide!

/-- The regtest genesis hash under the standard hashing is not the literal the
constructor asserts, and the merkle root is not the literal of line 341. -/
theorem regtestGenesis_digests_ne :
    standardEnv.GetHash (regtestGenesis standardEnv) ≠ uint256S "0x7543a69d7c2fcdb29a5ebec2fc064c074a35253b6f3072c8a749473aa590a29c" ∧
    (regtestGenesis standardEnv).hashMerkleRoot ≠ uint256S regtestMerkleRootLiteral := by
  rw [regtestGenesis_digests.1, regtestGenesis_digests.2]
  decide

/-- Under the standard hashing the main constructor completes. -/
theorem CMainParams_standardEnv :
    CMainParams standardEnv = .ok (CMainParams.assigned standardEnv) :=
  CMainParams_of_pins standardEnv mainGenesis_digests.1 mainGenesis_digests.2

/-- Under the standard hashing the test constructor completes. -/
theorem CTestNetParams_standardEnv :
    CTestNetParams standardEnv = .ok (CTestNetParams.assigned standardEnv) :=
  CTestNetParams_of_pins standardEnv testGenesis_digests.1 testGenesis_digests.2

/-- Under the standard hashing the regtest constructor aborts on line 340. -/
theorem CRegTestParams_standardEnv :
    CRegTestParams standardEnv = .error .assertion_failed :=
  CRegTestParams_of_hash_ne standardEnv regtestGenesis_digests_ne.1

/-! ## The registry: creation, selection, query -/

/-- C1 fails on "regtest": under the standard hashing `CreateChainParams`
returns a bundle for "main" and for "test", throws the unknown-chain
`runtime_error` for every string other than the three identifiers, and for
"regtest" neither returns nor throws: the constructor aborts on the assertion
of line 340, so a bundle is returned exactly for "main" and "test". -/
theorem CreateChainParams_regtest_aborts (chain : String) :
    CreateChainParams standardEnv "regtest" = .error .assertion_failed ∧
    CreateChainParams standardEnv "main" = .ok (CMainParams.assigned standardEnv) ∧
    CreateChainParams standardEnv "test" = .ok (CTestNetParams.assigned standardEnv) ∧
    ((∃ p, CreateChainParams standardEnv chain = .ok p) ↔ (chain = "main" ∨ chain = "test")) ∧
    (¬ (chain = "main" ∨ chain = "test" ∨ chain = "regtest") →
      CreateChainParams standardEnv chain =
        .error (.runtime_error ("CreateChainParams: Unknown chain " ++ chain ++ "."))) := by
  have hr : CreateChainParams standardEnv "regtest" = .error .assertion_failed := by
    rw [CreateChainParams_regtest]; exact CRegTestParams_standardEnv
  have hm : CreateChainParams standardEnv "main" = .ok (CMainParams.assigned standardEnv) := by
    rw [CreateChainParams_main]; exact CMainParams_standardEnv
  have ht : CreateChainParams standardEnv "test" = .ok (CTestNetParams.assigned standardEnv) := by
    rw [CreateChainParams_test]; exact CTestNetParams_standardEnv
  refine ⟨hr, hm, ht, ⟨?_, ?_⟩, CreateChainParams_unknown standardEnv chain⟩
  · rintro ⟨p, hp⟩
    rcases CreateChainParams_ok_cases hp with h | h | h
    · exact Or.inl h.1
    · exact Or.inr h.1
    · rw [CRegTestParams_standardEnv] at h
      cases h.2
  · rintro (h | h)
    · subst h; exact ⟨_, hm⟩
    · subst h; exact ⟨_, ht⟩

/-- C2: in the initial registry state (`globalChainParams` empty) `Params()`
fails on its assertion and returns no bundle. -/
theorem Params_unselected_fails :
    Params globalChainParamsInit = .error .assertion_failed ∧
      ∀ p, Params globalChainParamsInit ≠ .ok p := by
  refine ⟨rfl, ?_⟩
  intro p h
  cases h

/-- C3 fails on "regtest": under the standard hashing, from every registry
state, `SelectParams("regtest")` aborts on the assertion of line 340 and the
registry is not replaced, so `Params()` answers as before the call; for "main"
and "test" the registry afterwards holds exactly the bundle `CreateChainParams`
builds, whose identifier is the requested one, whatever it held before. -/
theorem SelectParams_regtest_aborts (g : Registry) :
    SelectParams standardEnv "regtest" g = (.error .assertion_failed, g) ∧
    Params (SelectParams standardEnv "regtest" g).2 = Params g ∧
    (SelectParams standardEnv "main" g = (.ok (), some (CMainParams.assigned standardEnv)) ∧
      CreateChainParams standardEnv "main" = .ok (CMainParams.assigned standardEnv) ∧
      Params (SelectParams standardEnv "main" g).2 = .ok (CMainParams.assigned standardEnv) ∧
      (CMainParams.assigned standardEnv).strNetworkID = "main") ∧
    (SelectParams standardEnv "test" g = (.ok (), some (CTestNetParams.assigned standardEnv)) ∧
      CreateChainParams standardEnv "test" = .ok (CTestNetParams.assigned standardEnv) ∧
      Params (SelectParams standardEnv "test" g).2 = .ok (CTestNetParams.assigned standardEnv) ∧
      (CTestNetParams.assigned standardEnv).strNetworkID = "test") := by
  have hr : CreateChainParams standardEnv "regtest" = .error .assertion_failed := by
    rw [CreateChainParams_regtest]; exact CRegTestParams_standardEnv
  have hm : CreateChainParams standardEnv "main" = .ok (CMainParams.assigned standardEnv) := by
    rw [CreateChainParams_main]; exact CMainParams_standardEnv
  have ht : CreateChainParams standardEnv "test" = .ok (CTestNetParams.assigned standardEnv) := by
    rw [CreateChainParams_test]; exact CTestNetParams_standardEnv
  have br : standardEnv.SelectBaseParams "regtest" = .ok () := rfl
  have bm : standardEnv.SelectBaseParams "main" = .ok () := rfl
  have bt : standardEnv.SelectBaseParams "test" = .ok () := rfl
  have sr : SelectParams standardEnv "regtest" g = (.error .assertion_failed, g) := by
    simp [SelectParams, br, hr]
  have sm : SelectParams standardEnv "main" g =
      (.ok (), some (CMainParams.assigned standardEnv)) := by
    simp [SelectParams, bm, hm]
  have st : SelectParams standardEnv "test" g =
      (.ok (), some (CTestNetParams.assigned standardEnv)) := by
    simp [SelectParams, bt, ht]
  refine ⟨sr, by rw [sr], ⟨sm, hm, by rw [sm]; rfl, rfl⟩, ⟨st, ht, by rw [st]; rfl, rfl⟩⟩

/-- C4: on a selected bundle, `UpdateVersionBitsParameters(d, s, t)` succeeds and
yields a bundle whose deployment `d` has `nStartTime = s` and `nTimeout = t`; the
bit of `d` and every other deployment are unchanged, and putting the old
deployment table back gives the old bundle, so no other member changed. -/
theorem UpdateVersionBitsParameters_frame (p : CChainParams) (d : DeploymentPos) (s t : Int) :
    UpdateVersionBitsParameters d s t (some p) =
      (.ok (), some (p.UpdateVersionBitsParameters d s t)) ∧
    ((p.UpdateVersionBitsParameters d s t).consensus.vDeployments d).nStartTime = s ∧
    ((p.UpdateVersionBitsParameters d s t).consensus.vDeployments d).nTimeout = t ∧
    ((p.UpdateVersionBitsParameters d s t).consensus.vDeployments d).bit =
      (p.consensus.vDeployments d).bit ∧
    (∀ e, e ≠ d →
      (p.UpdateVersionBitsParameters d s t).consensus.vDeployments e =
        p.consensus.vDeployments e) ∧
    { p.UpdateVersionBitsParameters d s t with
      consensus := { (p.UpdateVersionBitsParameters d s t).consensus with
        vDeployments := p.consensus.vDeployments } } = p := by
  refine ⟨rfl, ?_, ?_, ?_, ?_, ?_⟩
  · simp [CChainParams.UpdateVersionBitsParameters]
  · simp [CChainParams.UpdateVersionBitsParameters]
  · simp [CChainParams.UpdateVersionBitsParameters]
  · intro e he
    simp [CChainParams.UpdateVersionBitsParameters, Function.update_noteq he]
  · cases p
    rfl

/-! ## Genesis pins -/

/-- C5 fails for regtest: with a hash function that returns the pinned regtest
literal, the regtest constructor completes although the merkle root of its
genesis block is zero, which is not the literal of line 341; with a merkle-root
function that is constantly one it completes as well. The merkle-root
`assert` that `CMainParams` and `CTestNetParams` evaluate is commented out in
`CRegTestParams`. -/
theorem CRegTestParams_ignores_merkle_root :
    CRegTestParams sampleEnv = .ok (CRegTestParams.assigned sampleEnv) ∧
    (CRegTestParams.assigned sampleEnv).genesis.hashMerkleRoot = 0 ∧
    (CRegTestParams.assigned sampleEnv).genesis.hashMerkleRoot ≠
      uint256S regtestMerkleRootLiteral ∧
    CRegTestParams { sampleEnv with BlockMerkleRoot := fun _ => 1 } =
      .ok (CRegTestParams.assigned { sampleEnv with BlockMerkleRoot := fun _ => 1 }) ∧
    (CRegTestParams.assigned
      { sampleEnv with BlockMerkleRoot := fun _ => 1 }).genesis.hashMerkleRoot = 1 := by
  refine ⟨rfl, rfl, ?_, rfl, rfl⟩
  decide

/-- What the three constructors check, for arbitrary hash and merkle-root
functions: `CMainParams` and `CTestNetParams` complete exactly when the computed
genesis hash and the computed merkle root both equal the pinned literals, and
`CRegTestParams` completes exactly when the computed genesis hash equals its
pinned literal; in every other case the constructor aborts on an assertion. -/
theorem genesis_pins_checked (E : External) :
    (((∃ p, CMainParams E = .ok p) ↔
        (E.GetHash (mainGenesis E) =
            uint256S "0xe0b0b95cc209e17dd4280e3ab830256783d89ef714accce540232da33e2b320a" ∧
          (mainGenesis E).hashMerkleRoot =
            uint256S "0x7f7fd8e22ea946489fedb1151fdc397dfc666d474654edc155f07fec6ee64bb2")) ∧
      ((¬ ∃ p, CMainParams E = .ok p) ↔ CMainParams E = .error .assertion_failed)) ∧
    (((∃ p, CTestNetParams E = .ok p) ↔
        (E.GetHash (testGenesis E) =
            uint256S "0x39c55d04ea8b5117abb84809c862a9d17212bdae22115bef80f6a508f2a24ab6" ∧
          (testGenesis E).hashMerkleRoot =
            uint256S "0x8f85a3537367aa9a83bec83d70d1a71a54e79354bf875afd96a211d1754ab66e")) ∧
      ((¬ ∃ p, CTestNetParams E = .ok p) ↔ CTestNetParams E = .error .assertion_failed)) ∧
    (((∃ p, CRegTestParams E = .ok p) ↔
        E.GetHash (regtestGenesis E) =
          uint256S "0x7543a69d7c2fcdb29a5ebec2fc064c074a35253b6f3072c8a749473aa590a29c") ∧
      ((¬ ∃ p, CRegTestParams E = .ok p) ↔ CRegTestParams E = .error .assertion_failed)) := by
  refine ⟨⟨⟨?_, ?_⟩, ⟨?_, ?_⟩⟩, ⟨⟨?_, ?_⟩, ⟨?_, ?_⟩⟩, ⟨⟨?_, ?_⟩, ⟨?_, ?_⟩⟩⟩
  · rintro ⟨p, hp⟩
    exact (CMainParams_ok hp).2
  · rintro ⟨h1, h2⟩
    refine ⟨CMainParams.assigned E, ?_⟩
    unfold CMainParams
    simp only []
    split_ifs with a b
    · exact absurd h1 a
    · exact absurd h2 b
    · rfl
  · intro h
    rcases CMainParams_total E with h0 | h0
    · exact absurd ⟨_, h0⟩ h
    · exact h0
  · rintro h ⟨p, hp⟩
    rw [h] at hp
    cases hp
  · rintro ⟨p, hp⟩
    exact (CTestNetParams_ok hp).2
  · rintro ⟨h1, h2⟩
    refine ⟨CTestNetParams.assigned E, ?_⟩
    unfold CTestNetParams
    simp only []
    split_ifs with a b
    · exact absurd h1 a
    · exact absurd h2 b
    · rfl
  · intro h
    rcases CTestNetParams_total E with h0 | h0
    · exact absurd ⟨_, h0⟩ h
    · exact h0
  · rintro h ⟨p, hp⟩
    rw [h] at hp
    cases hp
  · rintro ⟨p, hp⟩
    exact (CRegTestParams_ok hp).2
  · intro h1
    refine ⟨CRegTestParams.assigned E, ?_⟩
    unfold CRegTestParams
    simp only []
    split_ifs with a
    · exact absurd h1 a
    · rfl
  · intro h
    rcases CRegTestParams_total E with h0 | h0
    · exact absurd ⟨_, h0⟩ h
    · exact h0
  · rintro h ⟨p, hp⟩
    rw [h] at hp
    cases hp

/-! ## Checkpoints -/

/-- On the main and test networks the checkpoint at height 0 is the genesis
hash of a completed bundle. -/
theorem checkpoint_zero_main_test (E : External) (p : CChainParams)
    (h : CreateChainParams E "main" = .ok p ∨ CreateChainParams E "test" = .ok p) :
    mapFind p.checkpointData.mapCheckpoints 0 = some p.consensus.hashGenesisBlock := by
  rcases h with h | h
  · rw [CreateChainParams_main] at h
    obtain ⟨hp, hh, -⟩ := CMainParams_ok h
    subst hp
    have e1 : (CMainParams.assigned E).consensus.hashGenesisBlock = E.GetHash (mainGenesis E) :=
      rfl
    rw [e1, hh]
    rfl
  · rw [CreateChainParams_test] at h
    obtain ⟨hp, hh, -⟩ := CTestNetParams_ok h
    subst hp
    have e1 : (CTestNetParams.assigned E).consensus.hashGenesisBlock =
        E.GetHash (testGenesis E) := rfl
    rw [e1, hh]
    rfl

/-- C6: under the standard hashing, every bundle `CreateChainParams` returns
has a checkpoint at height 0 whose hash is the bundle's
`consensus.hashGenesisBlock`. Bundles are returned for "main" and "test" only:
the regtest constructor aborts on line 340 and constructs none. -/
theorem checkpoint_zero_is_genesis (chain : String) (p : CChainParams)
    (h : CreateChainParams standardEnv chain = .ok p) :
    mapFind p.checkpointData.mapCheckpoints 0 = some p.consensus.hashGenesisBlock := by
  rcases CreateChainParams_ok_cases h with h1 | h1 | h1
  · obtain ⟨hc, -⟩ := h1
    subst hc
    exact checkpoint_zero_main_test standardEnv p (Or.inl h)
  · obtain ⟨hc, -⟩ := h1
    subst hc
    exact checkpoint_zero_main_test standardEnv p (Or.inr h)
  · rw [CRegTestParams_standardEnv] at h1
    cases h1.2

/-- Witness of C6 on the main bundle under the standard hashing. -/
theorem checkpoint_zero_is_genesis_witness :
    CreateChainParams standardEnv "main" = .ok (CMainParams.assigned standardEnv) ∧
    mapFind (CMainParams.assigned standardEnv).checkpointData.mapCheckpoints 0 =
      some (CMainParams.assigned standardEnv).consensus.hashGenesisBlock := by
  have h : CreateChainParams standardEnv "main" = .ok (CMainParams.assigned standardEnv) := by
    rw [CreateChainParams_main]; exact CMainParams_standardEnv
  exact ⟨h, checkpoint_zero_is_genesis "main" _ h⟩

/-- C7: the checkpoint table each constructor assigns is built from its braced
list; in each of the three lists the heights, in source order, are strictly
increasing, every height is non-negative and every hash literal is 64
hexadecimal digits after an optional `0x`; the `std::map` built from a list
holds the entries in that same order, none dropped. -/
theorem checkpoint_tables_wellformed (E : External) :
    ((CMainParams.assigned E).checkpointData = checkpointsOf mainCheckpointEntries ∧
      List.Pairwise (fun a b => a < b) (mainCheckpointEntries.map Prod.fst) ∧
      (∀ e ∈ mainCheckpointEntries, 0 ≤ e.1 ∧ isHashLiteral e.2 = true) ∧
      (checkpointsOf mainCheckpointEntries).mapCheckpoints =
        mainCheckpointEntries.map (fun e => (e.1, uint256S e.2))) ∧
    ((CTestNetParams.assigned E).checkpointData = checkpointsOf testCheckpointEntries ∧
      List.Pairwise (fun a b => a < b) (testCheckpointEntries.map Prod.fst) ∧
      (∀ e ∈ testCheckpointEntries, 0 ≤ e.1 ∧ isHashLiteral e.2 = true) ∧
      (checkpointsOf testCheckpointEntries).mapCheckpoints =
        testCheckpointEntries.map (fun e => (e.1, uint256S e.2))) ∧
    ((CRegTestParams.assigned E).checkpointData = checkpointsOf regtestCheckpointEntries ∧
      List.Pairwise (fun a b => a < b) (regtestCheckpointEntries.map Prod.fst) ∧
      (∀ e ∈ regtestCheckpointEntries, 0 ≤ e.1 ∧ isHashLiteral e.2 = true) ∧
      (checkpointsOf regtestCheckpointEntries).mapCheckpoints =
        regtestCheckpointEntries.map (fun e => (e.1, uint256S e.2))) := by
  refine ⟨⟨rfl, ?_, ?_, ?_⟩, ⟨rfl, ?_, ?_, ?_⟩, ⟨rfl, ?_, ?_, ?_⟩⟩
  · decide
  · decide
  · rfl
  · decide
  · decide
  · rfl
  · decide
  · decide
  · rfl

/-! ## Deployment bits, encoding prefixes, message start -/

/-- A bundle returned by `CreateChainParams` is the object one of the three
constructors assigned. -/
theorem CreateChainParams_ok_assigned {E : External} {chain : String} {p : CChainParams}
    (h : CreateChainParams E chain = .ok p) :
    (chain = "main" ∧ p = CMainParams.assigned E) ∨
      (chain = "test" ∧ p = CTestNetParams.assigned E) ∨
      (chain = "regtest" ∧ p = CRegTestParams.assigned E) := by
  rcases CreateChainParams_ok_cases h with h | h | h
  · exact Or.inl ⟨h.1, (CMainParams_ok h.2).1⟩
  · exact Or.inr (Or.inl ⟨h.1, (CTestNetParams_ok h.2).1⟩)
  · exact Or.inr (Or.inr ⟨h.1, (CRegTestParams_ok h.2).1⟩)

/-- C8: in every bundle `CreateChainParams` returns, two deployments with the
same bit index are the same deployment, and every bit index lies in 0..28. -/
theorem deployment_bits_distinct (E : External) (chain : String) (p : CChainParams)
    (h : CreateChainParams E chain = .ok p) :
    (∀ d e : DeploymentPos,
      (p.consensus.vDeployments d).bit = (p.consensus.vDeployments e).bit → d = e) ∧
    (∀ d : DeploymentPos,
      0 ≤ (p.consensus.vDeployments d).bit ∧ (p.consensus.vDeployments d).bit ≤ 28) := by
  rcases CreateChainParams_ok_assigned h with ⟨-, hp⟩ | ⟨-, hp⟩ | ⟨-, hp⟩ <;> subst hp
  · refine ⟨?_, ?_⟩
    · intro d e
      cases d <;> cases e <;> simp [CMainParams.assigned]
    · intro d
      cases d <;> simp [CMainParams.assigned]
  · refine ⟨?_, ?_⟩
    · intro d e
      cases d <;> cases e <;> simp [CTestNetParams.assigned]
    · intro d
      cases d <;> simp [CTestNetParams.assigned]
  · refine ⟨?_, ?_⟩
    · intro d e
      cases d <;> cases e <;> simp [CRegTestParams.assigned]
    · intro d
      cases d <;> simp [CRegTestParams.assigned]

/-- Witness of C8 on the regtest bundle of the sample environment. -/
theorem deployment_bits_distinct_witness :
    CreateChainParams sampleEnv "regtest" = .ok (CRegTestParams.assigned sampleEnv) ∧
    ((CRegTestParams.assigned sampleEnv).consensus.vDeployments .DEPLOYMENT_SEGWIT).bit ≤ 28 := by
  have h : CreateChainParams sampleEnv "regtest" = .ok (CRegTestParams.assigned sampleEnv) := by
    rw [CreateChainParams_regtest]; exact CRegTestParams_sampleEnv
  exact ⟨h, ((deployment_bits_distinct sampleEnv "regtest" _ h).2 .DEPLOYMENT_SEGWIT).2⟩

/-- C9, as the claim states it, fails: in the main bundle of the sample
environment `SCRIPT_ADDRESS2` has the prefix of `SCRIPT_ADDRESS` and
`OLD_SECRET_KEY` has the prefix of `SECRET_KEY`. -/
theorem base58Prefixes_collide_on_main :
    CreateChainParams sampleEnv "main" = .ok (CMainParams.assigned sampleEnv) ∧
    (CMainParams.assigned sampleEnv).base58Prefixes .SCRIPT_ADDRESS2 =
      (CMainParams.assigned sampleEnv).base58Prefixes .SCRIPT_ADDRESS ∧
    (CMainParams.assigned sampleEnv).base58Prefixes .OLD_SECRET_KEY =
      (CMainParams.assigned sampleEnv).base58Prefixes .SECRET_KEY ∧
    ¬ Function.Injective (CMainParams.assigned sampleEnv).base58Prefixes := by
  refine ⟨?_, rfl, rfl, ?_⟩
  · rw [CreateChainParams_main]; exact CMainParams_sampleEnv
  · intro hinj
    have h : Base58Type.SCRIPT_ADDRESS2 = Base58Type.SCRIPT_ADDRESS := hinj rfl
    cases h

/-- C9 (amended): in every bundle `CreateChainParams` returns, two encoded types
with the same prefix are the same type, or are `SCRIPT_ADDRESS` and
`SCRIPT_ADDRESS2`, or are `SECRET_KEY` and `OLD_SECRET_KEY`; and `OLD_SECRET_KEY`
carries the prefix of `SECRET_KEY`. -/
theorem base58Prefixes_distinct_up_to_aliases (E : External) (chain : String) (p : CChainParams)
    (h : CreateChainParams E chain = .ok p) :
    (∀ a b : Base58Type, p.base58Prefixes a = p.base58Prefixes b →
      a = b ∨
      (a = .SCRIPT_ADDRESS ∧ b = .SCRIPT_ADDRESS2) ∨ (a = .SCRIPT_ADDRESS2 ∧ b = .SCRIPT_ADDRESS) ∨
      (a = .SECRET_KEY ∧ b = .OLD_SECRET_KEY) ∨ (a = .OLD_SECRET_KEY ∧ b = .SECRET_KEY)) ∧
    p.base58Prefixes .OLD_SECRET_KEY = p.base58Prefixes .SECRET_KEY := by
  rcases CreateChainParams_ok_assigned h with ⟨-, hp⟩ | ⟨-, hp⟩ | ⟨-, hp⟩ <;> subst hp
  · refine ⟨?_, rfl⟩
    intro a b
    cases a <;> cases b <;> simp [CMainParams.assigned]
  · refine ⟨?_, rfl⟩
    intro a b
    cases a <;> cases b <;> simp [CTestNetParams.assigned]
  · refine ⟨?_, rfl⟩
    intro a b
    cases a <;> cases b <;> simp [CRegTestParams.assigned]

/-- Witness of the amended C9 on the test bundle of the sample environment. -/
theorem base58Prefixes_distinct_up_to_aliases_witness :
    CreateChainParams sampleEnv "test" = .ok (CTestNetParams.assigned sampleEnv) ∧
    (CTestNetParams.assigned sampleEnv).base58Prefixes .OLD_SECRET_KEY =
      (CTestNetParams.assigned sampleEnv).base58Prefixes .SECRET_KEY := by
  have h : CreateChainParams sampleEnv "test" = .ok (CTestNetParams.assigned sampleEnv) := by
    rw [CreateChainParams_test]; exact CTestNetParams_sampleEnv
  exact ⟨h, (base58Prefixes_distinct_up_to_aliases sampleEnv "test" _ h).2⟩

/-- C10: two bundles that `CreateChainParams` returns for distinct identifiers
have 4-byte message-start sequences that differ in at least one position. -/
theorem pchMessageStart_distinct (E : External) (n1 n2 : String) (p1 p2 : CChainParams)
    (h1 : CreateChainParams E n1 = .ok p1) (h2 : CreateChainParams E n2 = .ok p2)
    (hne : n1 ≠ n2) :
    p1.pchMessageStart.length = 4 ∧ p2.pchMessageStart.length = 4 ∧
    (∃ i, i < 4 ∧ p1.pchMessageStart.getD i 0 ≠ p2.pchMessageStart.getD i 0) ∧
    p1.pchMessageStart ≠ p2.pchMessageStart := by
  have hm : (CMainParams.assigned E).pchMessageStart = [0x12, 0x34, 0x56, 0x78] := rfl
  have ht : (CTestNetParams.assigned E).pchMessageStart = [0xab, 0xcd, 0xef, 0x99] := rfl
  have hr : (CRegTestParams.assigned E).pchMessageStart = [0xfa, 0xbf, 0xb5, 0xda] := rfl
  rcases CreateChainParams_ok_assigned h1 with ⟨e1, hp1⟩ | ⟨e1, hp1⟩ | ⟨e1, hp1⟩ <;>
    rcases CreateChainParams_ok_assigned h2 with ⟨e2, hp2⟩ | ⟨e2, hp2⟩ | ⟨e2, hp2⟩ <;>
    subst hp1 <;> subst hp2 <;>
    first
      | exact absurd (e1.trans e2.symm) hne
      | (simp only [hm, ht, hr]
         exact ⟨by decide, by decide, ⟨0, by decide, by decide⟩, by decide⟩)

/-- Witness of C10 on the main and regtest bundles of the sample environment. -/
theorem pchMessageStart_distinct_witness :
    CreateChainParams sampleEnv "main" = .ok (CMainParams.assigned sampleEnv) ∧
    CreateChainParams sampleEnv "regtest" = .ok (CRegTestParams.assigned sampleEnv) ∧
    "main" ≠ "regtest" ∧
    (CMainParams.assigned sampleEnv).pchMessageStart ≠
      (CRegTestParams.assigned sampleEnv).pchMessageStart := by
  have h1 : CreateChainParams sampleEnv "main" = .ok (CMainParams.assigned sampleEnv) := by
    rw [CreateChainParams_main]; exact CMainParams_sampleEnv
  have h2 : CreateChainParams sampleEnv "regtest" = .ok (CRegTestParams.assigned sampleEnv) := by
    rw [CreateChainParams_regtest]; exact CRegTestParams_sampleEnv
  have hne : "main" ≠ "regtest" := by decide
  exact ⟨h1, h2, hne, (pchMessageStart_distinct sampleEnv "main" "regtest" _ _ h1 h2 hne).2.2.2⟩

/-! ## The genesis block builder -/

/-- C11: for every message, output script, time, nonce, bits, version and
reward, `CreateGenesisBlock` returns a block that carries the given `nTime`,
`nBits`, `nNonce` and `nVersion`, has the null previous-block hash and exactly
one transaction, of version 1 with one input (whose script carries the message)
and one output paying `genesisReward` to the given script. Its merkle root is
`BlockMerkleRoot` of the block as it stands when line 35 runs, and that is
`BlockMerkleRoot` of the returned block whenever `BlockMerkleRoot` does not read
the block's own `hashMerkleRoot` member. -/
theorem CreateGenesisBlock_shape (E : External) (pszTimestamp : String)
    (genesisOutputScript : CScript) (nTime nNonce nBits : Nat) (nVersion genesisReward : Int) :
    (CreateGenesisBlockWith E pszTimestamp genesisOutputScript nTime nNonce nBits nVersion
        genesisReward).nTime = nTime ∧
    (CreateGenesisBlockWith E pszTimestamp genesisOutputScript nTime nNonce nBits nVersion
        genesisReward).nBits = nBits ∧
    (CreateGenesisBlockWith E pszTimestamp genesisOutputScript nTime nNonce nBits nVersion
        genesisReward).nNonce = nNonce ∧
    (CreateGenesisBlockWith E pszTimestamp genesisOutputScript nTime nNonce nBits nVersion
        genesisReward).nVersion = nVersion ∧
    (CreateGenesisBlockWith E pszTimestamp genesisOutputScript nTime nNonce nBits nVersion
        genesisReward).hashPrevBlock = 0 ∧
    (CreateGenesisBlockWith E pszTimestamp genesisOutputScript nTime nNonce nBits nVersion
        genesisReward).vtx =
      [{ nVersion := 1
         vin := [{ scriptSig :=
           [.int64 486604799, .scriptNum 4, .bytes (cstrBytes pszTimestamp)] }]
         vout := [{ nValue := genesisReward, scriptPubKey := genesisOutputScript }] }] ∧
    (CreateGenesisBlockWith E pszTimestamp genesisOutputScript nTime nNonce nBits nVersion
        genesisReward).hashMerkleRoot =
      E.BlockMerkleRoot
        { CreateGenesisBlockWith E pszTimestamp genesisOutputScript nTime nNonce nBits nVersion
            genesisReward with hashMerkleRoot := 0 } ∧
    ((∀ (b : CBlock) (r : Nat),
        E.BlockMerkleRoot { b with hashMerkleRoot := r } = E.BlockMerkleRoot b) →
      (CreateGenesisBlockWith E pszTimestamp genesisOutputScript nTime nNonce nBits nVersion
          genesisReward).hashMerkleRoot =
        E.BlockMerkleRoot
          (CreateGenesisBlockWith E pszTimestamp genesisOutputScript nTime nNonce nBits nVersion
            genesisReward)) := by
  refine ⟨rfl, rfl, rfl, rfl, rfl, rfl, rfl, ?_⟩
  intro hroot
  exact (hroot _ _).symm

/-- Witness of C11: the regtest inputs in the sample environment, whose
`BlockMerkleRoot` reads only the time stamp of the block. -/
theorem CreateGenesisBlock_shape_witness :
    (CreateGenesisBlockWith sampleEnv "msg" [.opcode .OP_CHECKSIG] 1296688602 1 0x207fffff 1
        5000000000).hashMerkleRoot =
      sampleEnv.BlockMerkleRoot
        (CreateGenesisBlockWith sampleEnv "msg" [.opcode .OP_CHECKSIG] 1296688602 1 0x207fffff 1
          5000000000) :=
  (CreateGenesisBlock_shape sampleEnv "msg" [.opcode .OP_CHECKSIG] 1296688602 1 0x207fffff 1
    5000000000).2.2.2.2.2.2.2 (fun _ _ => rfl)

/-- C16 fails on regtest: under the standard hashing the genesis block built
from the main inputs `CreateGenesisBlock(1532145131, 0xE918, 0x1F0FFFFF, 1,
3500000358212617622)` has the pinned identity hash `e0b0b95c...` and merkle root
`7f7fd8e2...`, and the test inputs reproduce the test pins; the regtest inputs
give the identity hash `77abb7c3...`, which is not the pinned `7543a69d...`, and
the merkle root `6074c0c6...`, which is not the literal of line 341. -/
theorem genesis_digests_reproduced :
    (standardEnv.GetHash
        (CreateGenesisBlock standardEnv 1532145131 0xE918 0x1F0FFFFF 1 3500000358212617622) =
        0xe0b0b95cc209e17dd4280e3ab830256783d89ef714accce540232da33e2b320a ∧
      (CreateGenesisBlock standardEnv 1532145131 0xE918 0x1F0FFFFF 1
          3500000358212617622).hashMerkleRoot =
        0x7f7fd8e22ea946489fedb1151fdc397dfc666d474654edc155f07fec6ee64bb2) ∧
    (standardEnv.GetHash (mainGenesis standardEnv) = uint256S "0xe0b0b95cc209e17dd4280e3ab830256783d89ef714accce540232da33e2b320a" ∧
      (mainGenesis standardEnv).hashMerkleRoot = uint256S "0x7f7fd8e22ea946489fedb1151fdc397dfc666d474654edc155f07fec6ee64bb2") ∧
    (standardEnv.GetHash (testGenesis standardEnv) = uint256S "0x39c55d04ea8b5117abb84809c862a9d17212bdae22115bef80f6a508f2a24ab6" ∧
      (testGenesis standardEnv).hashMerkleRoot = uint256S "0x8f85a3537367aa9a83bec83d70d1a71a54e79354bf875afd96a211d1754ab66e") ∧
    (standardEnv.GetHash (regtestGenesis standardEnv) =
        0x77abb7c360a995a03ff62d3231436d2e827f8ddc9a6150d1e35cbf3e4b811462 ∧
      standardEnv.GetHash (regtestGenesis standardEnv) ≠ uint256S "0x7543a69d7c2fcdb29a5ebec2fc064c074a35253b6f3072c8a749473aa590a29c" ∧
      (regtestGenesis standardEnv).hashMerkleRoot =
        0x6074c0c6b30c2b932a1c728006a7d2e648b455a2a5d40a3d1ec4f1b290b3401d ∧
      (regtestGenesis standardEnv).hashMerkleRoot ≠ uint256S regtestMerkleRootLiteral) := by
  have e1 : uint256S "0xe0b0b95cc209e17dd4280e3ab830256783d89ef714accce540232da33e2b320a" =
      0xe0b0b95cc209e17dd4280e3ab830256783d89ef714accce540232da33e2b320a := by decide
  have e2 : uint256S "0x7f7fd8e22ea946489fedb1151fdc397dfc666d474654edc155f07fec6ee64bb2" =
      0x7f7fd8e22ea946489fedb1151fdc397dfc666d474654edc155f07fec6ee64bb2 := by decide
  exact ⟨⟨mainGenesis_digests.1.trans e1, mainGenesis_digests.2.trans e2⟩, mainGenesis_digests,
    testGenesis_digests,
    regtestGenesis_digests.1, regtestGenesis_digests_ne.1,
    regtestGenesis_digests.2, regtestGenesis_digests_ne.2⟩

/-! ## Consensus tables of the three networks -/

/-- The main and test constructors assign the two subsidy members. -/
theorem subsidy_members_main_test (E : External) :
    (CMainParams.assigned E).consensus.nSubsidyAmount = some (10714 * E.COIN) ∧
    (CMainParams.assigned E).consensus.nSubsidyBlankHeight = some 1920 ∧
    (CTestNetParams.assigned E).consensus.nSubsidyAmount = some (2500 * E.COIN) ∧
    (CTestNetParams.assigned E).consensus.nSubsidyBlankHeight = some 20 :=
  ⟨rfl, rfl, rfl, rfl⟩

/-- C12 fails on regtest: a completed regtest bundle has no value stored in
`consensus.nSubsidyAmount` nor in `consensus.nSubsidyBlankHeight`; the regtest
constructor has no assignment to either member. -/
theorem regtest_subsidy_members_unassigned (E : External) (p : CChainParams)
    (h : CreateChainParams E "regtest" = .ok p) :
    p.consensus.nSubsidyAmount = none ∧ p.consensus.nSubsidyBlankHeight = none := by
  rw [CreateChainParams_regtest] at h
  obtain ⟨hp, -⟩ := CRegTestParams_ok h
  subst hp
  exact ⟨rfl, rfl⟩

/-- Witness of the unassigned regtest subsidy members in the sample environment. -/
theorem regtest_subsidy_members_unassigned_witness :
    CreateChainParams sampleEnv "regtest" = .ok (CRegTestParams.assigned sampleEnv) ∧
    (CRegTestParams.assigned sampleEnv).consensus.nSubsidyAmount = none ∧
    (CRegTestParams.assigned sampleEnv).consensus.nSubsidyBlankHeight = none := by
  have h : CreateChainParams sampleEnv "regtest" = .ok (CRegTestParams.assigned sampleEnv) := by
    rw [CreateChainParams_regtest]; exact CRegTestParams_sampleEnv
  exact ⟨h, regtest_subsidy_members_unassigned sampleEnv _ h⟩

/-- C13: in every bundle `CreateChainParams` returns, each hard-fork switch
height is -1 or non-negative, and
`nSwitchKGWblock ≤ nSwitchDIGIblock ≤ nSwitchLyra2REv2_DGW`. -/
theorem switch_heights_ordered (E : External) (chain : String) (p : CChainParams)
    (h : CreateChainParams E chain = .ok p) :
    (p.nSwitchKGWblock = -1 ∨ 0 ≤ p.nSwitchKGWblock) ∧
    (p.nSwitchDIGIblock = -1 ∨ 0 ≤ p.nSwitchDIGIblock) ∧
    (p.nSwitchLyra2REv2_DGW = -1 ∨ 0 ≤ p.nSwitchLyra2REv2_DGW) ∧
    p.nSwitchKGWblock ≤ p.nSwitchDIGIblock ∧
    p.nSwitchDIGIblock ≤ p.nSwitchLyra2REv2_DGW := by
  have hm : (CMainParams.assigned E).nSwitchKGWblock = -1 ∧
      (CMainParams.assigned E).nSwitchDIGIblock = -1 ∧
      (CMainParams.assigned E).nSwitchLyra2REv2_DGW = 1 := ⟨rfl, rfl, rfl⟩
  have ht : (CTestNetParams.assigned E).nSwitchKGWblock = -1 ∧
      (CTestNetParams.assigned E).nSwitchDIGIblock = -1 ∧
      (CTestNetParams.assigned E).nSwitchLyra2REv2_DGW = 1 := ⟨rfl, rfl, rfl⟩
  have hr : (CRegTestParams.assigned E).nSwitchKGWblock = 20 ∧
      (CRegTestParams.assigned E).nSwitchDIGIblock = 40 ∧
      (CRegTestParams.assigned E).nSwitchLyra2REv2_DGW = 60 := ⟨rfl, rfl, rfl⟩
  rcases CreateChainParams_ok_assigned h with ⟨-, hp⟩ | ⟨-, hp⟩ | ⟨-, hp⟩ <;> subst hp
  · rw [hm.1, hm.2.1, hm.2.2]; decide
  · rw [ht.1, ht.2.1, ht.2.2]; decide
  · rw [hr.1, hr.2.1, hr.2.2]; decide

/-- Witness of C13 on the regtest bundle of the sample environment. -/
theorem switch_heights_ordered_witness :
    CreateChainParams sampleEnv "regtest" = .ok (CRegTestParams.assigned sampleEnv) ∧
    (CRegTestParams.assigned sampleEnv).nSwitchKGWblock ≤
      (CRegTestParams.assigned sampleEnv).nSwitchDIGIblock ∧
    (CRegTestParams.assigned sampleEnv).nSwitchDIGIblock ≤
      (CRegTestParams.assigned sampleEnv).nSwitchLyra2REv2_DGW := by
  have h : CreateChainParams sampleEnv "regtest" = .ok (CRegTestParams.assigned sampleEnv) := by
    rw [CreateChainParams_regtest]; exact CRegTestParams_sampleEnv
  exact ⟨h, (switch_heights_ordered sampleEnv "regtest" _ h).2.2.2⟩

/-- C14: in a bundle `CreateChainParams` returns for identifier `chain`,
`fPowAllowMinDifficultyBlocks` is true exactly for "test" and "regtest", and
`fPowNoRetargeting` and `fMineBlocksOnDemand` are each true exactly for
"regtest". -/
theorem network_flags (E : External) (chain : String) (p : CChainParams)
    (h : CreateChainParams E chain = .ok p) :
    (p.consensus.fPowAllowMinDifficultyBlocks = true ↔ (chain = "test" ∨ chain = "regtest")) ∧
    (p.consensus.fPowNoRetargeting = true ↔ chain = "regtest") ∧
    (p.fMineBlocksOnDemand = true ↔ chain = "regtest") := by
  have hm : (CMainParams.assigned E).consensus.fPowAllowMinDifficultyBlocks = false ∧
      (CMainParams.assigned E).consensus.fPowNoRetargeting = false ∧
      (CMainParams.assigned E).fMineBlocksOnDemand = false := ⟨rfl, rfl, rfl⟩
  have ht : (CTestNetParams.assigned E).consensus.fPowAllowMinDifficultyBlocks = true ∧
      (CTestNetParams.assigned E).consensus.fPowNoRetargeting = false ∧
      (CTestNetParams.assigned E).fMineBlocksOnDemand = false := ⟨rfl, rfl, rfl⟩
  have hr : (CRegTestParams.assigned E).consensus.fPowAllowMinDifficultyBlocks = true ∧
      (CRegTestParams.assigned E).consensus.fPowNoRetargeting = true ∧
      (CRegTestParams.assigned E).fMineBlocksOnDemand = true := ⟨rfl, rfl, rfl⟩
  rcases CreateChainParams_ok_assigned h with ⟨hc, hp⟩ | ⟨hc, hp⟩ | ⟨hc, hp⟩ <;>
    subst hp <;> subst hc
  · rw [hm.1, hm.2.1, hm.2.2]; decide
  · rw [ht.1, ht.2.1, ht.2.2]; decide
  · rw [hr.1, hr.2.1, hr.2.2]; decide

/-- Witness of C14 on the regtest bundle of the sample environment. -/
theorem network_flags_witness :
    CreateChainParams sampleEnv "regtest" = .ok (CRegTestParams.assigned sampleEnv) ∧
    (CRegTestParams.assigned sampleEnv).consensus.fPowNoRetargeting = true ∧
    (CRegTestParams.assigned sampleEnv).fMineBlocksOnDemand = true := by
  have h : CreateChainParams sampleEnv "regtest" = .ok (CRegTestParams.assigned sampleEnv) := by
    rw [CreateChainParams_regtest]; exact CRegTestParams_sampleEnv
  have t := network_flags sampleEnv "regtest" _ h
  exact ⟨h, t.2.1.2 rfl, t.2.2.2 rfl⟩

/-- C17: in every bundle `CreateChainParams` returns, the activation threshold
is exactly three quarters of the confirmation window, is positive and does not
exceed the window. -/
theorem activation_threshold_three_quarters (E : External) (chain : String) (p : CChainParams)
    (h : CreateChainParams E chain = .ok p) :
    4 * p.consensus.nRuleChangeActivationThreshold = 3 * p.consensus.nMinerConfirmationWindow ∧
    0 < p.consensus.nRuleChangeActivationThreshold ∧
    p.consensus.nRuleChangeActivationThreshold ≤ p.consensus.nMinerConfirmationWindow := by
  have hm : (CMainParams.assigned E).consensus.nRuleChangeActivationThreshold = 7560 ∧
      (CMainParams.assigned E).consensus.nMinerConfirmationWindow = 10080 := ⟨rfl, rfl⟩
  have ht : (CTestNetParams.assigned E).consensus.nRuleChangeActivationThreshold = 75 ∧
      (CTestNetParams.assigned E).consensus.nMinerConfirmationWindow = 100 := ⟨rfl, rfl⟩
  have hr : (CRegTestParams.assigned E).consensus.nRuleChangeActivationThreshold = 108 ∧
      (CRegTestParams.assigned E).consensus.nMinerConfirmationWindow = 144 := ⟨rfl, rfl⟩
  rcases CreateChainParams_ok_assigned h with ⟨-, hp⟩ | ⟨-, hp⟩ | ⟨-, hp⟩ <;> subst hp
  · rw [hm.1, hm.2]; decide
  · rw [ht.1, ht.2]; decide
  · rw [hr.1, hr.2]; decide

/-- Witness of C17 on the main bundle of the sample environment. -/
theorem activation_threshold_three_quarters_witness :
    CreateChainParams sampleEnv "main" = .ok (CMainParams.assigned sampleEnv) ∧
    4 * (CMainParams.assigned sampleEnv).consensus.nRuleChangeActivationThreshold =
      3 * (CMainParams.assigned sampleEnv).consensus.nMinerConfirmationWindow := by
  have h : CreateChainParams sampleEnv "main" = .ok (CMainParams.assigned sampleEnv) := by
    rw [CreateChainParams_main]; exact CMainParams_sampleEnv
  exact ⟨h, (activation_threshold_three_quarters sampleEnv "main" _ h).1⟩

/-- C19: in every bundle `CreateChainParams` returns, the compact difficulty
encoding of the genesis block is the literal of its network (main `0x1F0FFFFF`,
test `0x2000FFFF`, regtest `0x207fffff`) and decodes to a positive target below
`2 ^ 256` that does not exceed `consensus.powLimit`. -/
theorem genesis_target_within_powLimit (E : External) (chain : String) (p : CChainParams)
    (h : CreateChainParams E chain = .ok p) :
    ((chain = "main" ∧ p.genesis.nBits = 0x1F0FFFFF) ∨
      (chain = "test" ∧ p.genesis.nBits = 0x2000FFFF) ∨
      (chain = "regtest" ∧ p.genesis.nBits = 0x207fffff)) ∧
    0 < compactTarget p.genesis.nBits ∧
    compactTarget p.genesis.nBits < 2 ^ 256 ∧
    compactTarget p.genesis.nBits ≤ p.consensus.powLimit := by
  have hm : (CMainParams.assigned E).genesis.nBits = 0x1F0FFFFF ∧
      (CMainParams.assigned E).consensus.powLimit =
        uint256S "000fffffffffffffffffffffffffffffffffffffffffffffffffffffffffffff" :=
    ⟨rfl, rfl⟩
  have ht : (CTestNetParams.assigned E).genesis.nBits = 0x2000FFFF ∧
      (CTestNetParams.assigned E).consensus.powLimit =
        uint256S "00ffffffffffffffffffffffffffffffffffffffffffffffffffffffffffffff" :=
    ⟨rfl, rfl⟩
  have hr : (CRegTestParams.assigned E).genesis.nBits = 0x207fffff ∧
      (CRegTestParams.assigned E).consensus.powLimit =
        uint256S "7fffffffffffffffffffffffffffffffffffffffffffffffffffffffffffffff" :=
    ⟨rfl, rfl⟩
  rcases CreateChainParams_ok_assigned h with ⟨hc, hp⟩ | ⟨hc, hp⟩ | ⟨hc, hp⟩ <;>
    subst hp <;> subst hc
  · rw [hm.1, hm.2]; decide
  · rw [ht.1, ht.2]; decide
  · rw [hr.1, hr.2]; decide

/-- Witness of C19 on the main bundle of the sample environment. -/
theorem genesis_target_within_powLimit_witness :
    CreateChainParams sampleEnv "main" = .ok (CMainParams.assigned sampleEnv) ∧
    compactTarget (CMainParams.assigned sampleEnv).genesis.nBits ≤
      (CMainParams.assigned sampleEnv).consensus.powLimit := by
  have h : CreateChainParams sampleEnv "main" = .ok (CMainParams.assigned sampleEnv) := by
    rw [CreateChainParams_main]; exact CMainParams_sampleEnv
  exact ⟨h, (genesis_target_within_powLimit sampleEnv "main" _ h).2.2.2⟩

/-- C20: in every bundle `CreateChainParams` returns, before any adjustment,
each deployment starts strictly before it times out; `ALWAYS_ACTIVE` is -1 and
`NO_TIMEOUT` is the largest signed 64-bit value. -/
theorem deployment_windows_wellformed (E : External) (chain : String) (p : CChainParams)
    (h : CreateChainParams E chain = .ok p) :
    (∀ d : DeploymentPos,
      (p.consensus.vDeployments d).nStartTime < (p.consensus.vDeployments d).nTimeout) ∧
    BIP9Deployment.ALWAYS_ACTIVE = -1 ∧ BIP9Deployment.NO_TIMEOUT = 9223372036854775807 := by
  refine ⟨?_, rfl, by decide⟩
  rcases CreateChainParams_ok_assigned h with ⟨-, hp⟩ | ⟨-, hp⟩ | ⟨-, hp⟩ <;> subst hp
  · intro d
    cases d
    · show (1199145601 : Int) < 1230767999; decide
    · show (1532185200 : Int) < 1537542000; decide
    · show (1532185200 : Int) < 1537542000; decide
  · intro d
    cases d
    · show (1199145601 : Int) < 1230767999; decide
    · show (1531837800 : Int) < 1531873800; decide
    · show (1531837800 : Int) < 1531873800; decide
  · intro d
    cases d
    · show (0 : Int) < BIP9Deployment.NO_TIMEOUT; decide
    · show (0 : Int) < BIP9Deployment.NO_TIMEOUT; decide
    · show BIP9Deployment.ALWAYS_ACTIVE < BIP9Deployment.NO_TIMEOUT; decide

/-- Witness of C20 on the regtest bundle of the sample environment. -/
theorem deployment_windows_wellformed_witness :
    CreateChainParams sampleEnv "regtest" = .ok (CRegTestParams.assigned sampleEnv) ∧
    ((CRegTestParams.assigned sampleEnv).consensus.vDeployments .DEPLOYMENT_SEGWIT).nStartTime <
      ((CRegTestParams.assigned sampleEnv).consensus.vDeployments .DEPLOYMENT_SEGWIT).nTimeout := by
  have h : CreateChainParams sampleEnv "regtest" = .ok (CRegTestParams.assigned sampleEnv) := by
    rw [CreateChainParams_regtest]; exact CRegTestParams_sampleEnv
  exact ⟨h, (deployment_windows_wellformed sampleEnv "regtest" _ h).1 .DEPLOYMENT_SEGWIT⟩

/-! ## Atomic failure of selection -/

/-- C18: for an identifier outside "main", "test", "regtest" and any registry
state, `SelectParams` fails and the registry stays exactly as it was: the error
is the exception of `SelectBaseParams` if that call throws, and otherwise the
unknown-chain `runtime_error` of `CreateChainParams`. -/
theorem SelectParams_unknown_atomic (E : External) (g : Registry) (n : String)
    (hn : ¬ (n = "main" ∨ n = "test" ∨ n = "regtest")) :
    (SelectParams E n g).2 = g ∧
    (∃ e, (SelectParams E n g).1 = .error e) ∧
    (E.SelectBaseParams n = .ok () →
      (SelectParams E n g).1 =
        .error (.runtime_error ("CreateChainParams: Unknown chain " ++ n ++ "."))) ∧
    (∀ e, E.SelectBaseParams n = .error e → (SelectParams E n g).1 = .error e) := by
  have hu := CreateChainParams_unknown E n hn
  cases hb : E.SelectBaseParams n with
  | error e0 =>
    have hs : SelectParams E n g = (.error e0, g) := by simp [SelectParams, hb]
    refine ⟨by rw [hs], ⟨e0, by rw [hs]⟩, ?_, ?_⟩
    · intro h; cases h
    · intro e he; cases he; rw [hs]
  | ok u =>
    cases u
    have hs : SelectParams E n g =
        (.error (.runtime_error ("CreateChainParams: Unknown chain " ++ n ++ ".")), g) := by
      simp [SelectParams, hb, hu]
    refine ⟨by rw [hs], ⟨_, by rw [hs]⟩, ?_, ?_⟩
    · intro _; rw [hs]
    · intro e he; cases he

/-- Witness of C18: "bogus" over a registry that holds the main bundle, with a
base selection that accepts every string and with one that throws on unknown
identifiers. -/
theorem SelectParams_unknown_atomic_witness :
    ¬ ("bogus" = "main" ∨ "bogus" = "test" ∨ "bogus" = "regtest") ∧
    (SelectParams sampleEnv "bogus" (some (CMainParams.assigned sampleEnv))).2 =
      some (CMainParams.assigned sampleEnv) ∧
    (SelectParams sampleEnv "bogus" (some (CMainParams.assigned sampleEnv))).1 =
      .error (.runtime_error "CreateChainParams: Unknown chain bogus.") ∧
    (SelectParams sampleEnvStrict "bogus" (some (CMainParams.assigned sampleEnv))).2 =
      some (CMainParams.assigned sampleEnv) ∧
    (SelectParams sampleEnvStrict "bogus" (some (CMainParams.assigned sampleEnv))).1 =
      .error (.runtime_error "CreateBaseChainParams: Unknown chain bogus.") := by
  have hn : ¬ ("bogus" = "main" ∨ "bogus" = "test" ∨ "bogus" = "regtest") := by decide
  have t1 := SelectParams_unknown_atomic sampleEnv (some (CMainParams.assigned sampleEnv))
    "bogus" hn
  have t2 := SelectParams_unknown_atomic sampleEnvStrict (some (CMainParams.assigned sampleEnv))
    "bogus" hn
  exact ⟨hn, t1.1, t1.2.2.1 rfl, t2.1, t2.2.2.2 _ rfl⟩

end ChainParams
